import Mathlib

/-!
Verification development for the `pkger` release-packaging CLI (a single Go
file, `main.go`).  The definitions below are a shallow embedding of the
program:

* Go strings are Lean `String`s; `fmt.Sprintf` interpolation becomes `++`.
* `strings.Split(s, ".")` / `strings.Split(s, ",")` are modelled by
  `goSplit` (splitting on a single character, keeping empty fields).
* `time.Parse` with the fixed layout `2006-01-02T15-04-05Z` is modelled by
  `parseMinioReleaseTime`, following Go `time/format.go`: a 4-digit year,
  fixed 2-digit zero-padded month/day/minute/second, a 1-or-2 digit hour,
  literal `-`, `T`, `Z` separators, Go's special case accepting an unlaid-out
  fractional second (`,` or `.` followed by digits) after the seconds, range
  checks (month 1..12, hour < 24, minute < 60, second < 60, day within the
  month, Gregorian leap years), and no text left over.
* `time.Time.Format("20060102150405")` is modelled by `goFormatPkgTime`
  (zero-padded decimal fields).
* Go map literals with string keys become association `List`s in the order
  the source inserts the keys; a missing key of `rpmArchMap` / `debArchMap`
  yields Go's zero value `""`.
* The effectful parts of `main` and `doPackage` (nfpm, the file system)
  are represented by an oracle record `PkgEnv` plus explicit event traces;
  `panic` is modelled by `Option.none` / `RunOutcome.panicked` and
  `kingpin.Fatalf` by `RunOutcome.fatal`.
-/

/-! ## String utilities -/

/-- Merge the last two appended chunks: used to normalise literal chunk
boundaries of interpolated strings. -/
theorem append_tail2_eq (X a b ab : String) (h : a ++ b = ab) :
    (X ++ a) ++ b = X ++ ab := by
  rw [← h, String.append_assoc]

/-- Merge the last three appended chunks. -/
theorem append_tail3_eq (X a b c abc : String) (h : a ++ b ++ c = abc) :
    ((X ++ a) ++ b) ++ c = X ++ abc := by
  rw [← h, String.append_assoc, String.append_assoc, String.append_assoc]

/-- Model of `strings.Split` on a single separator character, acting on `List Char`:
every separator occurrence splits, empty fields are kept, the empty input
gives one empty field. -/
def splitOnCharList (sep : Char) : List Char → List (List Char)
  | [] => [[]]
  | c :: cs =>
    match splitOnCharList sep cs with
    | [] => [[]]
    | f :: rest => if c = sep then [] :: f :: rest else (c :: f) :: rest

/-- Model of Go `strings.Split(s, sep)` for a one-character separator. -/
def goSplit (sep : Char) (s : String) : List String :=
  (splitOnCharList sep s.data).map String.mk

/-! ## Model of `time.Parse` for the layout `2006-01-02T15-04-05Z` -/

/-- The numeric value of a decimal digit character. -/
def dval (c : Char) : Nat := c.toNat - '0'.toNat

/-- Go `getnum` with `fixed = true` for a two-digit field. -/
def get2 : List Char → Option (Nat × List Char)
  | a :: b :: rest =>
    if a.isDigit && b.isDigit then some (dval a * 10 + dval b, rest) else none
  | _ => none

/-- Go `getnum` with `fixed = false` (used for the `15` hour field):
one digit, or two when a second digit follows. -/
def getHour : List Char → Option (Nat × List Char)
  | a :: b :: rest =>
    if a.isDigit then
      if b.isDigit then some (dval a * 10 + dval b, rest)
      else some (dval a, b :: rest)
    else none
  | [a] => if a.isDigit then some (dval a, []) else none
  | [] => none

/-- Go `stdLongYear`: exactly four decimal digits. -/
def get4 : List Char → Option (Nat × List Char)
  | a :: b :: c :: d :: rest =>
    if a.isDigit && b.isDigit && c.isDigit && d.isDigit then
      some (dval a * 1000 + dval b * 100 + dval c * 10 + dval d, rest)
    else none
  | _ => none

/-- Consume one expected literal layout character. -/
def expectChar (c : Char) : List Char → Option (List Char)
  | x :: rest => if x = c then some rest else none
  | [] => none

/-- Decimal value of a digit list (most significant first). -/
def natOfDigits (ds : List Char) : Nat :=
  ds.foldl (fun acc c => acc * 10 + dval c) 0

/-- Go `Parse`'s special case after the seconds field: a `,` or `.` followed
by at least one digit is consumed as a fractional second even though the
layout has none; only the first nine digits contribute to the nanosecond
value (`parseNanoseconds` truncates at ten bytes). -/
def parseFrac : List Char → Nat × List Char
  | c :: d :: rest =>
    if (c = ',' || c = '.') && d.isDigit then
      let ds := d :: rest.takeWhile Char.isDigit
      let d9 := ds.take 9
      (natOfDigits d9 * 10 ^ (9 - d9.length), rest.dropWhile Char.isDigit)
    else (0, c :: d :: rest)
  | cs => (0, cs)

/-- Go `isLeap`. -/
def isLeap (y : Nat) : Bool := y % 4 == 0 && (y % 100 != 0 || y % 400 == 0)

/-- Go `daysIn` for months 1..12. -/
def daysIn (m y : Nat) : Nat :=
  if m = 2 then (if isLeap y then 29 else 28)
  else if m = 4 || m = 6 || m = 9 || m = 11 then 30
  else 31

/-- The wall-clock fields `time.Parse` produces for the layout
`2006-01-02T15-04-05Z` (the zone is always UTC). -/
structure GoTime where
  year : Nat
  month : Nat
  day : Nat
  hour : Nat
  minute : Nat
  second : Nat
  nsec : Nat
deriving DecidableEq

/-- Layout chunks `2006-01-02`: year, month (range-checked 1..12) and the
not-yet-range-checked day, with the rest of the input. -/
def parseDatePart (cs : List Char) : Option (Nat × Nat × Nat × List Char) := do
  let (year, r1) ← get4 cs
  let r2 ← expectChar '-' r1
  let (month, r3) ← get2 r2
  guard (1 ≤ month ∧ month ≤ 12)
  let r4 ← expectChar '-' r3
  let (day, r5) ← get2 r4
  pure (year, month, day, r5)

/-- Layout chunks `15-04-05` with Go's inline range checks. -/
def parseClockPart (cs : List Char) : Option (Nat × Nat × Nat × List Char) := do
  let (hour, r1) ← getHour cs
  guard (hour < 24)
  let r2 ← expectChar '-' r1
  let (minute, r3) ← get2 r2
  guard (minute < 60)
  let r4 ← expectChar '-' r3
  let (second, r5) ← get2 r4
  guard (second < 60)
  pure (hour, minute, second, r5)

/-- Model of `time.Parse("2006-01-02T15-04-05Z", s)`: `some` on success,
`none` on any parse or range error. -/
def parseMinioReleaseTime (s : String) : Option GoTime := do
  let (year, month, day, r1) ← parseDatePart s.data
  let r2 ← expectChar 'T' r1
  let (hour, minute, second, r3) ← parseClockPart r2
  let (nsec, r4) := parseFrac r3
  let r5 ← expectChar 'Z' r4
  guard (r5 = [])
  guard (1 ≤ day ∧ day ≤ daysIn month year)
  pure ⟨year, month, day, hour, minute, second, nsec⟩

/-- Zero-padded two-digit decimal (enough for the fields produced by
`parseMinioReleaseTime`, which are all below 100). -/
def pad2 (n : Nat) : String := if n < 10 then "0" ++ toString n else toString n

/-- Zero-padded four-digit decimal (parsed years are below 10000). -/
def pad4 (n : Nat) : String :=
  if n < 10 then "000" ++ toString n
  else if n < 100 then "00" ++ toString n
  else if n < 1000 then "0" ++ toString n
  else toString n

/-- Model of `rtime.Format("20060102150405")` (the
`minioPkgReleaseTagTimeLayout` constant). -/
def goFormatPkgTime (t : GoTime) : String :=
  pad4 t.year ++ pad2 t.month ++ pad2 t.day ++
    pad2 t.hour ++ pad2 t.minute ++ pad2 t.second

/-! ## `releaseTagToReleaseTime` and `semVerRelease` -/

/-- Embedding of `releaseTagToReleaseTime`: split the tag on `.`, require
2..4 fields, require field 0 to be `RELEASE`, and parse field 1 with the
`minioReleaseTagTimeLayout`.  On success the parsed time and the fields are
returned (the Go `time.Parse` error message is abbreviated). -/
def releaseTagToReleaseTime (releaseTag : String) :
    Except String (GoTime × List String) :=
  let fields := goSplit '.' releaseTag
  if fields.length < 2 ∨ fields.length > 4 then
    .error (releaseTag ++ " is not a valid release tag")
  else if fields.getD 0 "" ≠ "RELEASE" then
    .error (releaseTag ++ " is not a valid release tag")
  else
    match parseMinioReleaseTime (fields.getD 1 "") with
    | none => .error ("parsing time " ++ fields.getD 1 "" ++ " failed")
    | some t => .ok (t, fields)

/-- Embedding of `semVerRelease`; `none` models the `panic(err)` taken when
`releaseTagToReleaseTime` fails. -/
def semVerReleaseOpt (release : String) : Option String :=
  match releaseTagToReleaseTime release with
  | .error _ => none
  | .ok (rtime, fields) =>
    let hotfixStr :=
      if fields.length = 4 then fields.getD 2 "" ++ "." ++ fields.getD 3 ""
      else ""
    if hotfixStr ≠ "" then
      some (goFormatPkgTime rtime ++ ".0.0." ++ hotfixStr)
    else
      some (goFormatPkgTime rtime ++ ".0.0")

/-- The `--release` flag is declared with `Default("")` in `main.go`. -/
def releaseFlagDefaultValue : String := ""

/-- Returns `true` iff the `Except` is an `ok`. -/
def exceptOk {α β : Type} : Except α β → Bool
  | .ok _ => true
  | .error _ => false

/-! ## Download metadata data model -/

/-- Go struct `dlInfo`. -/
structure DlInfo where
  text : String := ""
  checksum : String := ""
  download : String := ""
deriving DecidableEq

/-- Go struct `downloadJSON` (all pointer fields become `Option`). -/
structure DownloadJSON where
  text : String := ""
  bin : Option DlInfo := none
  rpm : Option DlInfo := none
  deb : Option DlInfo := none
  homebrew : Option DlInfo := none
  helm : Option DlInfo := none
  kubectl : Option DlInfo := none
  podman : Option DlInfo := none
deriving DecidableEq

/-- Go `map[string]downloadJSON` in source insertion order. -/
abbrev ArchMap := List (String × DownloadJSON)

/-- Go `map[string]map[string]downloadJSON` in source insertion order. -/
abbrev ProductMap := List (String × ArchMap)

/-- Go struct `downloadsJSON`. -/
structure DownloadsJSON where
  kubernetes : ProductMap := []
  docker : ProductMap := []
  linux : ProductMap := []
  macOS : ProductMap := []
  windows : ProductMap := []
deriving DecidableEq

/-- Go struct `enterpriseDownloadsJSON`. -/
structure EnterpriseDownloadsJSON where
  subscriptions : List (String × DownloadsJSON)
deriving DecidableEq

/-- Go map `rpmArchMap`; a missing key yields the zero value `""`. -/
def rpmArchMap (a : String) : String :=
  if a = "amd64" then "x86_64" else if a = "arm64" then "aarch64" else ""

/-- Go map `debArchMap`; a missing key yields the zero value `""`. -/
def debArchMap (a : String) : String :=
  if a = "amd64" then "amd64" else if a = "arm64" then "arm64" else ""

/-- A URL (or URL-bearing text) with the release-channel path segment made
explicit: `pre ++ "/" ++ seg ++ "/" ++ post`.  Each `fmt.Sprintf` format
string of `generateEnterpriseDownloadsJSON` is split at its single
`pathSegment` verb. -/
def segURL (pre seg post : String) : String := pre ++ "/" ++ seg ++ "/" ++ post

/-! ### `generateEnterpriseDownloadsJSON` (main.go lines 169-368)

The source computes `pathSegment` (`"release"` or `"edge"`) once and then
builds every entry by string interpolation; the entry builders below take
that segment as the parameter `seg`. -/

/-- The `mc-enterprise` Linux entry for `AIStor Client` (per architecture). -/
def entMcLinux (seg arch s : String) : DownloadJSON :=
  { bin := some
      { download := segURL "https://dl.min.io/aistor/mc" seg ("linux-" ++ arch ++ "/mc")
        text := segURL "wget https://dl.min.io/aistor/mc" seg
          ("linux-" ++ arch ++ "/mc\nchmod +x mc\n./mc --version")
        checksum := segURL "https://dl.min.io/aistor/mc" seg
          ("linux-" ++ arch ++ "/mc.sha256sum") }
    rpm := some
      { download := segURL "https://dl.min.io/aistor/mc" seg
          ("linux-" ++ arch ++ "/mcli-" ++ s ++ "-1." ++ rpmArchMap arch ++ ".rpm")
        checksum := segURL "https://dl.min.io/aistor/mc" seg
          ("linux-" ++ arch ++ "/mcli-" ++ s ++ "-1." ++ rpmArchMap arch ++ ".rpm.sha256sum")
        text := segURL "dnf install https://dl.min.io/aistor/mc" seg
          ("linux-" ++ arch ++ "/mcli-" ++ s ++ "-1." ++ rpmArchMap arch ++ ".rpm\nmc --version") }
    deb := some
      { download := segURL "https://dl.min.io/aistor/mc" seg
          ("linux-" ++ arch ++ "/mcli_" ++ s ++ "_" ++ debArchMap arch ++ ".deb")
        checksum := segURL "https://dl.min.io/aistor/mc" seg
          ("linux-" ++ arch ++ "/mcli_" ++ s ++ "_" ++ debArchMap arch ++ ".deb.sha256sum")
        text := segURL "wget https://dl.min.io/aistor/mc" seg
          ("linux-" ++ arch ++ "/mcli_" ++ s ++ "_" ++ debArchMap arch ++
            ".deb\ndpkg -i mcli_" ++ s ++ "_" ++ debArchMap arch ++ ".deb\nmc --version") } }

/-- The `mc-enterprise` Docker entry for `AIStor Client` (channel independent). -/
def entMcDocker (r : String) : DownloadJSON :=
  { podman := some
      { text := "podman pull quay.io/minio/aistor/mc:" ++ r ++
          "\npodman run --name my-mc --hostname my-mc -it --entrypoint /bin/bash --rm minio/mc\nmc --version" } }

/-- The `minio-enterprise` Kubernetes entry for `AIStor Server` (empty text). -/
def entMinioK8s : DownloadJSON := { text := "" }

/-- The `minio-enterprise` Linux entry for `MinIO KMS` (per architecture). -/
def entKmsLinux (seg arch : String) : DownloadJSON :=
  { bin := some
      { download := segURL "https://dl.min.io/aistor/minkms" seg ("linux-" ++ arch ++ "/minkms")
        text := segURL "wget https://dl.min.io/aistor/minkms" seg
          ("linux-" ++ arch ++ "/minkms\nchmod +x minkms\n./minkms --version")
        checksum := segURL "https://dl.min.io/aistor/minkms" seg
          ("linux-" ++ arch ++ "/minkms.sha256sum") } }

/-- The `minio-enterprise` Linux entry for `AIStor Server` (per architecture). -/
def entMinioLinux (seg arch s : String) : DownloadJSON :=
  { bin := some
      { download := segURL "https://dl.min.io/aistor/minio" seg ("linux-" ++ arch ++ "/minio")
        text := segURL "wget https://dl.min.io/aistor/minio" seg
          ("linux-" ++ arch ++ "/minio\nchmod +x minio\n./minio --version")
        checksum := segURL "https://dl.min.io/aistor/minio" seg
          ("linux-" ++ arch ++ "/minio.sha256sum") }
    rpm := some
      { download := segURL "https://dl.min.io/aistor/minio" seg
          ("linux-" ++ arch ++ "/minio-" ++ s ++ "-1." ++ rpmArchMap arch ++ ".rpm")
        checksum := segURL "https://dl.min.io/aistor/minio" seg
          ("linux-" ++ arch ++ "/minio-" ++ s ++ "-1." ++ rpmArchMap arch ++ ".rpm.sha256sum")
        text := segURL "dnf install https://dl.min.io/aistor/minio" seg
          ("linux-" ++ arch ++ "/minio-" ++ s ++ "-1." ++ rpmArchMap arch ++ ".rpm\nminio --version") }
    deb := some
      { download := segURL "https://dl.min.io/aistor/minio" seg
          ("linux-" ++ arch ++ "/minio_" ++ s ++ "_" ++ debArchMap arch ++ ".deb")
        checksum := segURL "https://dl.min.io/aistor/minio" seg
          ("linux-" ++ arch ++ "/minio_" ++ s ++ "_" ++ debArchMap arch ++ ".deb.sha256sum")
        text := segURL "wget https://dl.min.io/aistor/minio" seg
          ("linux-" ++ arch ++ "/minio_" ++ s ++ "_" ++ debArchMap arch ++
            ".deb\ndpkg -i minio_" ++ s ++ "_" ++ debArchMap arch ++ ".deb\nminio --version") } }

/-- The `minio-enterprise` Docker entry for `AIStor Server` (channel independent). -/
def entMinioDocker (r : String) : DownloadJSON :=
  { podman := some
      { text := "podman pull quay.io/minio/aistor/minio:" ++ r ++
          "\npodman run minio/aistor/minio --version" } }

/-- The `mc-enterprise` macOS entry for `AIStor Client` (per architecture). -/
def entMcMac (seg arch : String) : DownloadJSON :=
  { homebrew := some
      { download := segURL "https://dl.min.io/aistor/mc" seg ("darwin-" ++ arch ++ "/mc")
        text := "brew install minio/aistor/mc"
        checksum := segURL "https://dl.min.io/aistor/mc" seg
          ("darwin-" ++ arch ++ "/mc.sha256sum") }
    bin := some
      { download := segURL "https://dl.min.io/aistor/mc" seg ("darwin-" ++ arch ++ "/mc")
        text := segURL "curl --progress-bar -O https://dl.min.io/aistor/mc" seg
          ("darwin-" ++ arch ++ "/mc\nchmod +x mc\n./mc --version")
        checksum := segURL "https://dl.min.io/aistor/mc" seg
          ("darwin-" ++ arch ++ "/mc.sha256sum") } }

/-- The `minio-enterprise` macOS entry for `AIStor Server` (per architecture);
note the Homebrew URLs use the `/server/minio/` prefix in the source. -/
def entMinioMac (seg arch : String) : DownloadJSON :=
  { homebrew := some
      { download := segURL "https://dl.min.io/server/minio" seg ("darwin-" ++ arch ++ "/minio")
        checksum := segURL "https://dl.min.io/server/minio" seg
          ("darwin-" ++ arch ++ "/minio.sha256sum")
        text := "brew install minio/aistor/minio" }
    bin := some
      { download := segURL "https://dl.min.io/aistor/minio" seg ("darwin-" ++ arch ++ "/minio")
        text := segURL "curl --progress-bar -O https://dl.min.io/aistor/minio" seg
          ("darwin-" ++ arch ++ "/minio\nchmod +x minio\n./minio --version")
        checksum := segURL "https://dl.min.io/aistor/minio" seg
          ("darwin-" ++ arch ++ "/minio.sha256sum") } }

/-- The `mc-enterprise` Windows entry for `AIStor Client` (per architecture). -/
def entMcWin (seg arch : String) : DownloadJSON :=
  { bin := some
      { download := segURL "https://dl.min.io/aistor/mc" seg
          ("windows-" ++ arch ++ "/mc.exe")
        text := segURL "Invoke-WebRequest -Uri \"https://dl.min.io/aistor/mc" seg
          ("windows-" ++ arch ++ "/mc.exe\" -OutFile \"mc.exe\"\nmc.exe --version")
        checksum := segURL "https://dl.min.io/aistor/mc" seg
          ("windows-" ++ arch ++ "/mc.exe.sha256sum") } }

/-- The `minio-enterprise` Windows entry for `AIStor Server` (per architecture). -/
def entMinioWin (seg arch : String) : DownloadJSON :=
  { bin := some
      { download := segURL "https://dl.min.io/aistor/minio" seg
          ("windows-" ++ arch ++ "/minio.exe")
        text := segURL "Invoke-WebRequest -Uri \"https://dl.min.io/aistor/minio" seg
          ("windows-" ++ arch ++ "/minio.exe\" -OutFile \"minio.exe\"\nminio.exe --version")
        checksum := segURL "https://dl.min.io/aistor/minio" seg
          ("windows-" ++ arch ++ "/minio.exe.sha256sum") } }

/-- Body of `generateEnterpriseDownloadsJSON` with the already-computed
`pathSegment` as a parameter.  Map keys appear in the source's insertion
order; `mc-enterprise`'s Kubernetes product map is initialised but never
filled, exactly as in the source. -/
def genEnterpriseSeg (seg s a r : String) : EnterpriseDownloadsJSON :=
  { subscriptions := [("Enterprise",
      { kubernetes :=
          (if a = "minio-enterprise" then
            [("AIStor Server", [("amd64", entMinioK8s), ("arm64", entMinioK8s)])]
          else []) ++
          (if a = "mc-enterprise" then [("AIStor Client", [])] else [])
        docker :=
          (if a = "minio-enterprise" then
            [("AIStor Server",
              [("amd64", entMinioDocker r), ("arm64", entMinioDocker r)])]
          else []) ++
          (if a = "mc-enterprise" then
            [("AIStor Client",
              [("amd64", entMcDocker r), ("arm64", entMcDocker r)])]
          else [])
        linux :=
          (if a = "minio-enterprise" then
            [("AIStor Server",
                [("amd64", entMinioLinux seg "amd64" s),
                 ("arm64", entMinioLinux seg "arm64" s)]),
             ("MinIO KMS",
                [("amd64", entKmsLinux seg "amd64"),
                 ("arm64", entKmsLinux seg "arm64")])]
          else []) ++
          (if a = "mc-enterprise" then
            [("AIStor Client",
                [("amd64", entMcLinux seg "amd64" s),
                 ("arm64", entMcLinux seg "arm64" s)])]
          else [])
        macOS :=
          (if a = "minio-enterprise" then
            [("AIStor Server", [("arm64", entMinioMac seg "arm64")])]
          else []) ++
          (if a = "mc-enterprise" then
            [("AIStor Client", [("arm64", entMcMac seg "arm64")])]
          else [])
        windows :=
          (if a = "minio-enterprise" then
            [("AIStor Server", [("amd64", entMinioWin seg "amd64")])]
          else []) ++
          (if a = "mc-enterprise" then
            [("AIStor Client", [("amd64", entMcWin seg "amd64")])]
          else []) })] }

/-- Embedding of `generateEnterpriseDownloadsJSON(semVerTag, appName,
releaseTag, isEdge)`. -/
def generateEnterpriseDownloadsJSON (semVerTag appName releaseTag : String)
    (isEdge : Bool) : EnterpriseDownloadsJSON :=
  genEnterpriseSeg (if isEdge then "edge" else "release") semVerTag appName releaseTag

/-! ### `generateDownloadsJSON` (main.go lines 370-536) -/

/-- Community `minio` Kubernetes entry. -/
def cMinioK8s : DownloadJSON :=
  { kubectl := some { text := "kubectl apply -k github.com/minio/operator" } }

/-- Community `minio` Docker entry. -/
def cMinioDocker : DownloadJSON :=
  { podman := some
      { text := "podman pull quay.io/minio/minio:latest\npodman run minio/minio --version" } }

/-- Community `minio` Linux entry (per architecture). -/
def cMinioLinux (s arch : String) : DownloadJSON :=
  { bin := some
      { download := "https://dl.min.io/server/minio/release/linux-" ++ arch ++ "/minio"
        text := "wget https://dl.min.io/server/minio/release/linux-" ++ arch ++
          "/minio\nchmod +x minio\n./minio --version"
        checksum := "https://dl.min.io/server/minio/release/linux-" ++ arch ++
          "/minio.sha256sum" }
    rpm := some
      { download := "https://dl.min.io/server/minio/release/linux-" ++ arch ++
          "/minio-" ++ s ++ "-1." ++ rpmArchMap arch ++ ".rpm"
        checksum := "https://dl.min.io/server/minio/release/linux-" ++ arch ++
          "/minio-" ++ s ++ "-1." ++ rpmArchMap arch ++ ".rpm.sha256sum"
        text := "dnf install https://dl.min.io/server/minio/release/linux-" ++ arch ++
          "/minio-" ++ s ++ "-1." ++ rpmArchMap arch ++ ".rpm\nminio --version" }
    deb := some
      { download := "https://dl.min.io/server/minio/release/linux-" ++ arch ++
          "/minio_" ++ s ++ "_" ++ debArchMap arch ++ ".deb"
        checksum := "https://dl.min.io/server/minio/release/linux-" ++ arch ++
          "/minio_" ++ s ++ "_" ++ debArchMap arch ++ ".deb.sha256sum"
        text := "wget https://dl.min.io/server/minio/release/linux-" ++ arch ++
          "/minio_" ++ s ++ "_" ++ debArchMap arch ++ ".deb\ndpkg -i minio_" ++
          s ++ "_" ++ debArchMap arch ++ ".deb\nminio --version" } }

/-- Community `mc` Kubernetes entry. -/
def cMcK8s : DownloadJSON :=
  { kubectl := some
      { text := "kubectl run my-mc -i --tty --image minio/mc:latest --command -- bash\nmc --version" } }

/-- Community `mc` Docker entry. -/
def cMcDocker : DownloadJSON :=
  { podman := some
      { text := "podman pull quay.io/minio/mc:latest\npodman run --name my-mc --hostname my-mc -it --entrypoint /bin/bash --rm minio/mc\nmc --version" } }

/-- Community `mc` Linux entry (per architecture). -/
def cMcLinux (s arch : String) : DownloadJSON :=
  { bin := some
      { download := "https://dl.min.io/client/mc/release/linux-" ++ arch ++ "/mc"
        text := "wget https://dl.min.io/client/mc/release/linux-" ++ arch ++
          "/mc\nchmod +x mc\n./mc --version"
        checksum := "https://dl.min.io/client/mc/release/linux-" ++ arch ++
          "/mc.sha256sum" }
    rpm := some
      { download := "https://dl.min.io/client/mc/release/linux-" ++ arch ++
          "/mcli-" ++ s ++ "-1." ++ rpmArchMap arch ++ ".rpm"
        checksum := "https://dl.min.io/client/mc/release/linux-" ++ arch ++
          "/mcli-" ++ s ++ "-1." ++ rpmArchMap arch ++ ".rpm.sha256sum"
        text := "dnf install https://dl.min.io/client/mc/release/linux-" ++ arch ++
          "/mcli-" ++ s ++ "-1." ++ rpmArchMap arch ++ ".rpm\nmc --version" }
    deb := some
      { download := "https://dl.min.io/client/mc/release/linux-" ++ arch ++
          "/mcli_" ++ s ++ "_" ++ debArchMap arch ++ ".deb"
        checksum := "https://dl.min.io/client/mc/release/linux-" ++ arch ++
          "/mcli_" ++ s ++ "_" ++ debArchMap arch ++ ".deb.sha256sum"
        text := "wget https://dl.min.io/client/mc/release/linux-" ++ arch ++
          "/mcli_" ++ s ++ "_" ++ debArchMap arch ++ ".deb\ndpkg -i mcli_" ++
          s ++ "_" ++ debArchMap arch ++ ".deb\nmc --version" } }

/-- Community `minio` macOS entry (per architecture). -/
def cMinioMac (arch : String) : DownloadJSON :=
  { homebrew := some
      { download := "https://dl.min.io/server/minio/release/darwin-" ++ arch ++ "/minio"
        checksum := "https://dl.min.io/server/minio/release/darwin-" ++ arch ++
          "/minio.sha256sum"
        text := "brew install minio/stable/minio" }
    bin := some
      { download := "https://dl.min.io/server/minio/release/darwin-" ++ arch ++ "/minio"
        checksum := "https://dl.min.io/server/minio/release/darwin-" ++ arch ++
          "/minio.sha256sum"
        text := "curl --progress-bar -O https://dl.min.io/server/minio/release/darwin-" ++
          arch ++ "/minio\nchmod +x minio\n./minio --version" } }

/-- Community `mc` macOS entry (per architecture); the source's binary
instructions end with `./minio --version` (sic). -/
def cMcMac (arch : String) : DownloadJSON :=
  { homebrew := some
      { download := "https://dl.min.io/client/mc/release/darwin-" ++ arch ++ "/mc"
        checksum := "https://dl.min.io/client/mc/release/darwin-" ++ arch ++
          "/mc.sha256sum"
        text := "brew install minio/stable/mc" }
    bin := some
      { download := "https://dl.min.io/client/mc/release/darwin-" ++ arch ++ "/mc"
        checksum := "https://dl.min.io/client/mc/release/darwin-" ++ arch ++
          "/mc.sha256sum"
        text := "curl --progress-bar -O https://dl.min.io/client/mc/release/darwin-" ++
          arch ++ "/mc\nchmod +x mc\n./minio --version" } }

/-- Community `minio` Windows entry (per architecture). -/
def cMinioWin (arch : String) : DownloadJSON :=
  { bin := some
      { download := "https://dl.min.io/server/minio/release/windows-" ++ arch ++
          "/minio.exe"
        text := "Invoke-WebRequest -Uri \"https://dl.min.io/server/minio/release/windows-" ++
          arch ++ "/minio.exe\" -OutFile \"minio.exe\"\nminio.exe --version"
        checksum := "https://dl.min.io/server/minio/release/windows-" ++ arch ++
          "/minio.exe.sha256sum" } }

/-- Community `mc` Windows entry (per architecture). -/
def cMcWin (arch : String) : DownloadJSON :=
  { bin := some
      { download := "https://dl.min.io/client/mc/release/windows-" ++ arch ++ "/mc.exe"
        text := "Invoke-WebRequest -Uri \"https://dl.min.io/client/mc/release/windows-" ++
          arch ++ "/mc.exe\" -OutFile \"mc.exe\"\nmc.exe --version"
        checksum := "https://dl.min.io/client/mc/release/windows-" ++ arch ++
          "/mc.exe.sha256sum" } }

/-- Embedding of `generateDownloadsJSON(semVerTag, appName)`:  products only
for `minio` / `mc`; Linux, Docker, Kubernetes over amd64/arm64/ppc64le;
macOS over amd64/arm64; Windows over amd64. -/
def generateDownloadsJSON (s appName : String) : DownloadsJSON :=
  { kubernetes :=
      if appName = "minio" then
        [("MinIO Server",
          [("amd64", cMinioK8s), ("arm64", cMinioK8s), ("ppc64le", cMinioK8s)])]
      else if appName = "mc" then
        [("MinIO Client", [("amd64", cMcK8s), ("arm64", cMcK8s), ("ppc64le", cMcK8s)])]
      else []
    docker :=
      if appName = "minio" then
        [("MinIO Server",
          [("amd64", cMinioDocker), ("arm64", cMinioDocker), ("ppc64le", cMinioDocker)])]
      else if appName = "mc" then
        [("MinIO Client",
          [("amd64", cMcDocker), ("arm64", cMcDocker), ("ppc64le", cMcDocker)])]
      else []
    linux :=
      if appName = "minio" then
        [("MinIO Server",
          [("amd64", cMinioLinux s "amd64"), ("arm64", cMinioLinux s "arm64"),
           ("ppc64le", cMinioLinux s "ppc64le")])]
      else if appName = "mc" then
        [("MinIO Client",
          [("amd64", cMcLinux s "amd64"), ("arm64", cMcLinux s "arm64"),
           ("ppc64le", cMcLinux s "ppc64le")])]
      else []
    macOS :=
      if appName = "minio" then
        [("MinIO Server", [("amd64", cMinioMac "amd64"), ("arm64", cMinioMac "arm64")])]
      else if appName = "mc" then
        [("MinIO Client", [("amd64", cMcMac "amd64"), ("arm64", cMcMac "arm64")])]
      else []
    windows :=
      if appName = "minio" then [("MinIO Server", [("amd64", cMinioWin "amd64")])]
      else if appName = "mc" then [("MinIO Client", [("amd64", cMcWin "amd64")])]
      else [] }

/-! ### `generateSidekickDownloadsJSON` (main.go lines 538-601) -/

/-- Sidekick Kubernetes entry (per architecture). -/
def skK8s (r : String) : DownloadJSON :=
  { kubectl := some
      { text := "kubectl run my-sidekick -i --tty --image quay.io/minio/aistor/sidekick:" ++
          r ++ " --command -- bash\nsidekick --version" } }

/-- Sidekick Docker entry (per architecture). -/
def skDocker (r : String) : DownloadJSON :=
  { podman := some
      { text := "podman pull quay.io/minio/aistor/sidekick:" ++ r ++
          "\npodman run --name my-sidekick -it --rm quay.io/minio/aistor/sidekick:" ++
          r ++ " --version" } }

/-- Sidekick Linux entry (RPM and DEB only, per architecture). -/
def skLinux (s arch : String) : DownloadJSON :=
  { rpm := some
      { download := "https://dl.min.io/aistor/sidekick/release/linux-" ++ arch ++
          "/sidekick-" ++ s ++ "-1." ++ rpmArchMap arch ++ ".rpm"
        checksum := "https://dl.min.io/aistor/sidekick/release/linux-" ++ arch ++
          "/sidekick-" ++ s ++ "-1." ++ rpmArchMap arch ++ ".rpm.sha256sum"
        text := "# Download the RPM package\nwget https://dl.min.io/aistor/sidekick/release/linux-" ++
          arch ++ "/sidekick-" ++ s ++ "-1." ++ rpmArchMap arch ++
          ".rpm\n\n# Install with yum/dnf\nsudo yum install sidekick-" ++ s ++ "-1." ++
          rpmArchMap arch ++ ".rpm\n# or\nsudo dnf install sidekick-" ++ s ++ "-1." ++
          rpmArchMap arch ++ ".rpm" }
    deb := some
      { download := "https://dl.min.io/aistor/sidekick/release/linux-" ++ arch ++
          "/sidekick_" ++ s ++ "_" ++ debArchMap arch ++ ".deb"
        checksum := "https://dl.min.io/aistor/sidekick/release/linux-" ++ arch ++
          "/sidekick_" ++ s ++ "_" ++ debArchMap arch ++ ".deb.sha256sum"
        text := "# Download the DEB package\nwget https://dl.min.io/aistor/sidekick/release/linux-" ++
          arch ++ "/sidekick_" ++ s ++ "_" ++ debArchMap arch ++
          ".deb\n\n# Install with apt\nsudo apt install ./sidekick_" ++ s ++ "_" ++
          debArchMap arch ++ ".deb\n# or\nsudo dpkg -i sidekick_" ++ s ++ "_" ++
          debArchMap arch ++ ".deb" } }

/-- Sidekick Windows amd64 entry. -/
def skWin : DownloadJSON :=
  { bin := some
      { download := "https://dl.min.io/aistor/sidekick/release/windows-amd64/sidekick.exe"
        text := "# Download from https://dl.min.io/aistor/sidekick/release/windows-amd64/sidekick.exe\n# Add to PATH or run directly"
        checksum := "https://dl.min.io/aistor/sidekick/release/windows-amd64/sidekick.exe.sha256sum" } }

/-- Embedding of `generateSidekickDownloadsJSON(semVerTag, releaseTag)`;
the macOS map is never initialised (Go `nil`), modelled as `[]`. -/
def generateSidekickDownloadsJSON (s r : String) : DownloadsJSON :=
  { kubernetes := [("MinIO Sidekick", [("amd64", skK8s r), ("arm64", skK8s r)])]
    docker := [("MinIO Sidekick", [("amd64", skDocker r), ("arm64", skDocker r)])]
    linux := [("MinIO Sidekick", [("amd64", skLinux s "amd64"), ("arm64", skLinux s "arm64")])]
    macOS := []
    windows := [("MinIO Sidekick", [("amd64", skWin)])] }

/-! ### `generateWarpDownloadsJSON` (main.go lines 603-677) -/

/-- Warp Kubernetes entry (per architecture). -/
def warpK8s (r : String) : DownloadJSON :=
  { kubectl := some
      { text := "kubectl run my-warp -i --tty --image quay.io/minio/aistor/warp:" ++ r ++
          " --command -- bash\nwarp --version" } }

/-- Warp Docker entry (per architecture). -/
def warpDocker (r : String) : DownloadJSON :=
  { podman := some
      { text := "podman pull quay.io/minio/aistor/warp:" ++ r ++
          "\npodman run --name my-warp -it --rm quay.io/minio/aistor/warp:" ++ r ++
          " --version" } }

/-- Warp Linux entry (per architecture); `v` is the `v`-stripped version. -/
def warpLinux (v arch : String) : DownloadJSON :=
  { bin := some
      { download := "https://dl.min.io/aistor/warp/release/linux-" ++ arch ++ "/warp"
        text := "wget https://dl.min.io/aistor/warp/release/linux-" ++ arch ++
          "/warp -O warp\nchmod +x warp\nsudo mv warp /usr/local/bin/"
        checksum := "https://dl.min.io/aistor/warp/release/linux-" ++ arch ++
          "/warp.sha256sum" }
    rpm := some
      { download := "https://dl.min.io/aistor/warp/release/linux-" ++ arch ++
          "/warp-" ++ v ++ "-1." ++ rpmArchMap arch ++ ".rpm"
        checksum := "https://dl.min.io/aistor/warp/release/linux-" ++ arch ++
          "/warp-" ++ v ++ "-1." ++ rpmArchMap arch ++ ".rpm.sha256sum"
        text := "wget https://dl.min.io/aistor/warp/release/linux-" ++ arch ++
          "/warp-" ++ v ++ "-1." ++ rpmArchMap arch ++ ".rpm\nsudo rpm -ivh warp-" ++
          v ++ "-1." ++ rpmArchMap arch ++ ".rpm" }
    deb := some
      { download := "https://dl.min.io/aistor/warp/release/linux-" ++ arch ++
          "/warp_" ++ v ++ "_" ++ debArchMap arch ++ ".deb"
        checksum := "https://dl.min.io/aistor/warp/release/linux-" ++ arch ++
          "/warp_" ++ v ++ "_" ++ debArchMap arch ++ ".deb.sha256sum"
        text := "wget https://dl.min.io/aistor/warp/release/linux-" ++ arch ++
          "/warp_" ++ v ++ "_" ++ debArchMap arch ++ ".deb\nsudo dpkg -i warp_" ++
          v ++ "_" ++ debArchMap arch ++ ".deb" } }

/-- Warp macOS arm64 entry. -/
def warpMac : DownloadJSON :=
  { bin := some
      { download := "https://dl.min.io/aistor/warp/release/darwin-arm64/warp"
        text := "wget https://dl.min.io/aistor/warp/release/darwin-arm64/warp -O warp\nchmod +x warp\nsudo mv warp /usr/local/bin/"
        checksum := "https://dl.min.io/aistor/warp/release/darwin-arm64/warp.sha256sum" } }

/-- Warp Windows amd64 entry. -/
def warpWin : DownloadJSON :=
  { bin := some
      { download := "https://dl.min.io/aistor/warp/release/windows-amd64/warp.exe"
        text := "# Download from https://dl.min.io/aistor/warp/release/windows-amd64/warp.exe\n# Add to PATH or run directly"
        checksum := "https://dl.min.io/aistor/warp/release/windows-amd64/warp.exe.sha256sum" } }

/-- Embedding of `generateWarpDownloadsJSON(version, releaseTag)`. -/
def generateWarpDownloadsJSON (v r : String) : DownloadsJSON :=
  { kubernetes := [("MinIO Warp", [("amd64", warpK8s r), ("arm64", warpK8s r)])]
    docker := [("MinIO Warp", [("amd64", warpDocker r), ("arm64", warpDocker r)])]
    linux := [("MinIO Warp", [("amd64", warpLinux v "amd64"), ("arm64", warpLinux v "arm64")])]
    macOS := [("MinIO Warp", [("arm64", warpMac)])]
    windows := [("MinIO Warp", [("amd64", warpWin)])] }

/-! ## Warp release-tag validation (main.go lines 729-742) -/

/-- Go `strings.HasPrefix(release, "v")`. -/
def hasVPre (s : String) : Bool :=
  match s.data with
  | c :: _ => c = 'v'
  | [] => false

/-- Go `strings.TrimPrefix(release, "v")`. -/
def trimLeadingV (s : String) : String :=
  match s.data with
  | c :: rest => if c = 'v' then String.mk rest else s
  | [] => s

/-- Consume one-or-more decimal digits (`\d+`): `some rest` when the input
starts with a digit, dropping the whole digit run. -/
def takeDigits1 (cs : List Char) : Option (List Char) :=
  match cs with
  | c :: rest => if c.isDigit then some (rest.dropWhile Char.isDigit) else none
  | [] => none

/-- Model of `regexp.MustCompile(...).MatchString(s)` for the anchored
semantic-version pattern: digits, dot, digits, dot, digits, end of input. -/
def semverMatch (s : String) : Bool :=
  match takeDigits1 s.data with
  | some ('.' :: r1) =>
    match takeDigits1 r1 with
    | some ('.' :: r2) =>
      match takeDigits1 r2 with
      | some [] => true
      | _ => false
    | _ => false
  | _ => false

/-- The two sequential warp validations of `main`, returning the stripped
version on success (Go's `Fatalf` messages, without quote characters). -/
def warpCheck (r : String) : Except String String :=
  if hasVPre r = false then
    .error ("warp release version must start with v (e.g., v0.4.3), got: " ++ r)
  else if semverMatch (trimLeadingV r) = false then
    .error ("warp release version must follow semantic versioning vX.Y.Z (e.g., v0.4.3), got: " ++ r)
  else .ok (trimLeadingV r)

/-! ## `doPackage` (main.go lines 821-1000)

The nfpm library and the file system are external to the repository; their
responses are supplied by the oracle record `PkgEnv`, and the file-system
actions the source performs are recorded as an event trace. -/

/-- Embedding of `releaseDirName()`: the `--releaseDir` flag when set,
otherwise the (enterprise-normalised) app name plus `-release`. -/
def releaseDirNameOf (releaseDirFlag appName : String) : String :=
  if releaseDirFlag ≠ "" then releaseDirFlag
  else
    (if appName = "minio-enterprise" then "minio"
     else if appName = "mc-enterprise" then "mc"
     else appName) ++ "-release"

/-- The per-architecture `continue` filters at the top of `doPackage`'s
loop: enterprise, sidekick and warp builds skip everything except amd64 and
arm64. -/
def archAllowed (appName arch : String) : Bool :=
  if appName = "minio-enterprise" && arch ≠ "amd64" && arch ≠ "arm64" then false
  else if appName = "mc-enterprise" && arch ≠ "amd64" && arch ≠ "arm64" then false
  else if appName = "sidekick" && arch ≠ "amd64" && arch ≠ "arm64" then false
  else if appName = "warp" && arch ≠ "amd64" && arch ≠ "arm64" then false
  else true

/-- Model of `strings.Split(packager, ",")`. -/
def pkgersOf (pk : String) : List String := goSplit ',' pk

/-- Model of `filepath.Ext` for a bare file name: the suffix starting at
the final dot, `""` when the name has no dot. -/
def extOf (s : String) : String :=
  match (goSplit '.' s).reverse with
  | [] => ""
  | [_] => ""
  | e :: _ => "." ++ e

/-- The lowercase hex alphabet of Go `encoding/hex`. -/
def hexDigitChars : List Char := "0123456789abcdef".data

/-- One byte as two lowercase hex characters (`hextable[b>>4]`,
`hextable[b&0x0f]`; bytes are below 256). -/
def byteHex (b : Nat) : List Char :=
  [hexDigitChars.getD (b / 16) '0', hexDigitChars.getD (b % 16) '0']

/-- Model of `hex.EncodeToString` over a byte list. -/
def hexEncode (bs : List Nat) : String := String.mk (List.flatten (bs.map byteHex))

/-- File-system / packaging actions performed by `doPackage`, in order. -/
inductive PkgEvent where
  /-- `os.Create(tgtPath)` -/
  | created (path : String)
  /-- the ignored `os.Remove` of the old convenience symlink -/
  | removedLink (name : String)
  /-- the ignored `os.Symlink(releasePkg, link)` -/
  | linked (target link : String)
  /-- the bytes `pkg.Package` wrote through the `io.MultiWriter` into the
  created file -/
  | fileBytes (path : String) (bytes : List Nat)
  /-- `os.Remove(tgtPath)` on the error paths -/
  | removed (path : String)
  /-- `os.WriteFile(path, content, 0644)` for the checksum sidecar -/
  | wrote (path content : String)
  /-- the `created package:` completion message for a target -/
  | pkgDone (path : String)
deriving DecidableEq

/-- Oracle for everything `doPackage` consumes from outside the repository:
nfpm responses per architecture/packager and file-system outcomes.  `sha`
abstracts `crypto/sha256` (digest of the emitted bytes). -/
structure PkgEnv where
  /-- result of `parseDepsFile` when the `--deps` flag is set -/
  depsParse : String → Except String Unit
  /-- error of `nfpm.Parse` on the rendered config, per architecture -/
  parseCfgErr : String → Option String
  /-- error of `config.Get(pkger)` -/
  getErr : String → String → Option String
  /-- error of `nfpm.Validate` on the defaulted info -/
  validateErr : String → String → Option String
  /-- error of `nfpm.Get(pkger)` -/
  implErr : String → Option String
  /-- `pkg.ConventionalFileName(info)` -/
  fileNameOf : String → String → String
  /-- error of `os.Create(tgtPath)` -/
  createErr : String → String → Option String
  /-- `pkg.Package`: the bytes written on success, or its error -/
  packageRes : String → String → Except String (List Nat)
  /-- error of `os.WriteFile` for the checksum sidecar -/
  sidecarErr : String → String → Option String
  /-- `crypto/sha256` digest -/
  sha : List Nat → List Nat

/-- One `pkger` iteration of `doPackage`'s inner loop (main.go lines
929-996): `config.Get`, `nfpm.Validate` (skipped combination when
`--ignore` is set), `nfpm.Get`, `os.Create`, the convenience symlink,
`pkg.Package` into the file and the SHA-256 hasher, and the checksum
sidecar; on a packaging or sidecar error the target file is removed and
the error returned. -/
def processCombo (env : PkgEnv) (appName releaseDirFlag arch pkgr : String)
    (ignore : Bool) : List PkgEvent × Option String :=
  match env.getErr arch pkgr with
  | some e => ([], some e)
  | none =>
    match env.validateErr arch pkgr with
    | some e => if ignore then ([], none) else ([], some e)
    | none =>
      match env.implErr pkgr with
      | some e => ([], some e)
      | none =>
        let fn := env.fileNameOf arch pkgr
        let tgt := releaseDirNameOf releaseDirFlag appName ++ "/linux-" ++ arch ++ "/" ++ fn
        match env.createErr arch pkgr with
        | some e => ([], some e)
        | none =>
          let linkName :=
            (if appName = "minio-enterprise" then "minio" else appName) ++ extOf fn
          let evs0 := [.created tgt, .removedLink linkName, .linked fn linkName]
          match env.packageRes arch pkgr with
          | .error e => (evs0 ++ [.removed tgt], some e)
          | .ok bytes =>
            match env.sidecarErr arch pkgr with
            | some e => (evs0 ++ [.fileBytes tgt bytes, .removed tgt], some e)
            | none =>
              (evs0 ++ [.fileBytes tgt bytes,
                .wrote (tgt ++ ".sha256sum") (hexEncode (env.sha bytes) ++ "  " ++ fn),
                .pkgDone tgt], none)

/-- The inner `for _, pkger := range strings.Split(packager, ",")` loop:
stop at the first returned error, otherwise concatenate the traces. -/
def processPkgers (env : PkgEnv) (appName releaseDirFlag arch : String)
    (ignore : Bool) : List String → List PkgEvent × Option String
  | [] => ([], none)
  | p :: rest =>
    match processCombo env appName releaseDirFlag arch p ignore with
    | (evs, some e) => (evs, some e)
    | (evs, none) =>
      match processPkgers env appName releaseDirFlag arch ignore rest with
      | (evs2, r2) => (evs ++ evs2, r2)

/-- The outer architecture loop of `doPackage`: filtered by `archAllowed`,
with `nfpm.Parse` of the rendered config once per architecture. -/
def processArches (env : PkgEnv) (appName releaseDirFlag : String)
    (pkgers : List String) (ignore : Bool) : List String → List PkgEvent × Option String
  | [] => ([], none)
  | a :: rest =>
    if archAllowed appName a then
      match env.parseCfgErr a with
      | some e => ([], some e)
      | none =>
        match processPkgers env appName releaseDirFlag a ignore pkgers with
        | (evs, some e) => (evs, some e)
        | (evs, none) =>
          match processArches env appName releaseDirFlag pkgers ignore rest with
          | (evs2, r2) => (evs ++ evs2, r2)
    else processArches env appName releaseDirFlag pkgers ignore rest

/-- The package version `doPackage` renders into the config: the
`v`-stripped release for warp, otherwise `semVerRelease(release)` (which
panics — `none` — on a malformed tag). -/
def doPackageVersionOf (appName release : String) : Option String :=
  if appName = "warp" then some (trimLeadingV release)
  else semVerReleaseOpt release

/-- Embedding of `doPackage(appName, license, release, packager, deps,
scriptsDir)`: parse the deps file when given, compute the package version
(possibly panicking), then run the architecture loop.  `none` models a
panic; otherwise the event trace and the function's returned error. -/
def doPackageModel (env : PkgEnv) (appName release packager deps releaseDirFlag : String)
    (ignore : Bool) : Option (List PkgEvent × Option String) :=
  match (if deps ≠ "" then env.depsParse deps else .ok ()) with
  | .error e => some ([], some e)
  | .ok _ =>
    match doPackageVersionOf appName release with
    | none => none
    | some _ =>
      some (processArches env appName releaseDirFlag (pkgersOf packager) ignore
        ["amd64", "arm64", "ppc64le"])

/-! ## `main` (main.go lines 693-757) -/

/-- The generated document `main` marshals and writes. -/
inductive GenDoc where
  | enterprise (d : EnterpriseDownloadsJSON)
  | plain (d : DownloadsJSON)
deriving DecidableEq

/-- Observable steps of `main` after flag parsing. -/
inductive MainEvent where
  /-- `doPackage` was invoked -/
  | ranDoPackage
  /-- `kingpin.Errorf` on a `doPackage` error under `--ignore` -/
  | loggedPkgError (e : String)
  /-- the marshalled document written to `releaseDirName()/filename` -/
  | wroteJSON (doc : GenDoc) (filename : String)
deriving DecidableEq

/-- Terminations of a `main` run: a Go `panic`, `kingpin.Fatalf`, or normal
completion with its event trace. -/
inductive RunOutcome where
  | panicked
  | fatal (msg : String)
  | finished (events : List MainEvent)
deriving DecidableEq

/-- The JSON-generation half of `main`: choose the generator by `appName`
(the `semVerRelease` calls may panic; the warp branch may `Fatalf`), then
write `downloads-<appName>[-edge].json`. -/
def jsonPhase (pre : List MainEvent) (appName release : String) (edge : Bool) :
    RunOutcome :=
  let fn := "downloads-" ++ appName ++ (if edge then "-edge" else "") ++ ".json"
  if appName = "minio-enterprise" ∨ appName = "mc-enterprise" then
    match semVerReleaseOpt release with
    | none => .panicked
    | some sv => .finished (pre ++
        [.wroteJSON (.enterprise (generateEnterpriseDownloadsJSON sv appName release edge)) fn])
  else if appName = "sidekick" then
    match semVerReleaseOpt release with
    | none => .panicked
    | some sv => .finished (pre ++
        [.wroteJSON (.plain (generateSidekickDownloadsJSON sv release)) fn])
  else if appName = "warp" then
    match warpCheck release with
    | .error e => .fatal e
    | .ok v => .finished (pre ++
        [.wroteJSON (.plain (generateWarpDownloadsJSON v release)) fn])
  else
    match semVerReleaseOpt release with
    | none => .panicked
    | some sv => .finished (pre ++
        [.wroteJSON (.plain (generateDownloadsJSON sv appName)) fn])

/-- Embedding of `main` after flag parsing: unless `--no-pkg` is set or the
app is warp, run `doPackage` (fatal on error without `--ignore`, logged
with it), then generate and write the downloads JSON. -/
def mainRun (env : PkgEnv) (noPackages ignoreMissingArch edge : Bool)
    (appName release packager deps releaseDirFlag : String) : RunOutcome :=
  if noPackages = false ∧ appName ≠ "warp" then
    match doPackageModel env appName release packager deps releaseDirFlag ignoreMissingArch with
    | none => .panicked
    | some (_, some e) =>
      if ignoreMissingArch then
        jsonPhase [.ranDoPackage, .loggedPkgError e] appName release edge
      else .fatal e
    | some (_, none) => jsonPhase [.ranDoPackage] appName release edge
  else jsonPhase [] appName release edge

/-! ## The EDGE/release relation for C2 -/

/-- A genuine channel substitution: the first string is
`pre ++ "/release/" ++ post` and the second is the same string with the
path segment replaced, `pre ++ "/edge/" ++ post`.  There is no equality
escape: two equal strings never satisfy this relation, because the two
shapes have different lengths at the same `pre`/`post`. -/
def segStep (x y : String) : Prop :=
  ∃ pre post, x = segURL pre "release" post ∧ y = segURL pre "edge" post

/-- Two `segURL` instances are related by construction. -/
theorem segStep_mk (pre post : String) :
    segStep (segURL pre "release" post) (segURL pre "edge" post) :=
  ⟨pre, post, rfl, rfl⟩

/-- An install-info slot whose download URL, checksum URL and instruction
text all carry the channel segment: every one of the three strings must be
substituted. -/
def dlAllSub (a b : DlInfo) : Prop :=
  segStep a.text b.text ∧ segStep a.checksum b.checksum ∧ segStep a.download b.download

/-- The Homebrew slot: download and checksum URLs carry the channel
segment, while the `brew install` instruction is channel independent and
must be exactly equal. -/
def dlBrewSub (a b : DlInfo) : Prop :=
  a.text = b.text ∧ segStep a.checksum b.checksum ∧ segStep a.download b.download

/-- Lift a `dlInfo` relation to the optional slot: both absent, or both
present and related. -/
def optDlRel (R : DlInfo → DlInfo → Prop) : Option DlInfo → Option DlInfo → Prop
  | none, none => True
  | some a, some b => R a b
  | _, _ => False

/-- Channel relation on a `downloadJSON` value, slot by slot: the Binary,
RPM and DEB slots are fully substituted, the Homebrew slot has substituted
URLs and an equal text, and the free-form text and the HELM, kubectl and
Podman slots do not differ at all. -/
def djChannelRel (a b : DownloadJSON) : Prop :=
  a.text = b.text ∧
    optDlRel dlAllSub a.bin b.bin ∧ optDlRel dlAllSub a.rpm b.rpm ∧
    optDlRel dlAllSub a.deb b.deb ∧ optDlRel dlBrewSub a.homebrew b.homebrew ∧
    a.helm = b.helm ∧ a.kubectl = b.kubectl ∧ a.podman = b.podman

/-- Same architecture keys in the same order, values channel related. -/
def archMapRel : ArchMap → ArchMap → Prop :=
  List.Forall₂ (fun x y => x.1 = y.1 ∧ djChannelRel x.2 y.2)

/-- Same product keys in the same order, architecture maps related. -/
def productMapRel : ProductMap → ProductMap → Prop :=
  List.Forall₂ (fun x y => x.1 = y.1 ∧ archMapRel x.2 y.2)

/-- All five platform maps related. -/
def downloadsChannelRel (a b : DownloadsJSON) : Prop :=
  productMapRel a.kubernetes b.kubernetes ∧ productMapRel a.docker b.docker ∧
    productMapRel a.linux b.linux ∧ productMapRel a.macOS b.macOS ∧
    productMapRel a.windows b.windows

/-- Same subscription keys, downloads related. -/
def enterpriseChannelRel (a b : EnterpriseDownloadsJSON) : Prop :=
  List.Forall₂ (fun x y => x.1 = y.1 ∧ downloadsChannelRel x.2 y.2)
    a.subscriptions b.subscriptions

/-! Per-entry channel lemmas for `generateEnterpriseDownloadsJSON`. -/

theorem entMcLinux_rel (arch s : String) :
    djChannelRel (entMcLinux "release" arch s) (entMcLinux "edge" arch s) :=
  ⟨rfl,
   ⟨segStep_mk _ _, segStep_mk _ _, segStep_mk _ _⟩,
   ⟨segStep_mk _ _, segStep_mk _ _, segStep_mk _ _⟩,
   ⟨segStep_mk _ _, segStep_mk _ _, segStep_mk _ _⟩,
   trivial, rfl, rfl, rfl⟩

theorem entMcDocker_rel (r : String) :
    djChannelRel (entMcDocker r) (entMcDocker r) :=
  ⟨rfl, trivial, trivial, trivial, trivial, rfl, rfl, rfl⟩

theorem entMinioK8s_rel : djChannelRel entMinioK8s entMinioK8s :=
  ⟨rfl, trivial, trivial, trivial, trivial, rfl, rfl, rfl⟩

theorem entKmsLinux_rel (arch : String) :
    djChannelRel (entKmsLinux "release" arch) (entKmsLinux "edge" arch) :=
  ⟨rfl,
   ⟨segStep_mk _ _, segStep_mk _ _, segStep_mk _ _⟩,
   trivial, trivial, trivial, rfl, rfl, rfl⟩

theorem entMinioLinux_rel (arch s : String) :
    djChannelRel (entMinioLinux "release" arch s) (entMinioLinux "edge" arch s) :=
  ⟨rfl,
   ⟨segStep_mk _ _, segStep_mk _ _, segStep_mk _ _⟩,
   ⟨segStep_mk _ _, segStep_mk _ _, segStep_mk _ _⟩,
   ⟨segStep_mk _ _, segStep_mk _ _, segStep_mk _ _⟩,
   trivial, rfl, rfl, rfl⟩

theorem entMinioDocker_rel (r : String) :
    djChannelRel (entMinioDocker r) (entMinioDocker r) :=
  ⟨rfl, trivial, trivial, trivial, trivial, rfl, rfl, rfl⟩

theorem entMcMac_rel (arch : String) :
    djChannelRel (entMcMac "release" arch) (entMcMac "edge" arch) :=
  ⟨rfl,
   ⟨segStep_mk _ _, segStep_mk _ _, segStep_mk _ _⟩,
   trivial, trivial,
   ⟨rfl, segStep_mk _ _, segStep_mk _ _⟩,
   rfl, rfl, rfl⟩

theorem entMinioMac_rel (arch : String) :
    djChannelRel (entMinioMac "release" arch) (entMinioMac "edge" arch) :=
  ⟨rfl,
   ⟨segStep_mk _ _, segStep_mk _ _, segStep_mk _ _⟩,
   trivial, trivial,
   ⟨rfl, segStep_mk _ _, segStep_mk _ _⟩,
   rfl, rfl, rfl⟩

theorem entMcWin_rel (arch : String) :
    djChannelRel (entMcWin "release" arch) (entMcWin "edge" arch) :=
  ⟨rfl,
   ⟨segStep_mk _ _, segStep_mk _ _, segStep_mk _ _⟩,
   trivial, trivial, trivial, rfl, rfl, rfl⟩

theorem entMinioWin_rel (arch : String) :
    djChannelRel (entMinioWin "release" arch) (entMinioWin "edge" arch) :=
  ⟨rfl,
   ⟨segStep_mk _ _, segStep_mk _ _, segStep_mk _ _⟩,
   trivial, trivial, trivial, rfl, rfl, rfl⟩

/-- C2: for every semVerTag, appName and releaseTag, the enterprise
downloads mapping generated for the EDGE channel is the stable-channel
mapping with the `release` URL path segment replaced by `edge`: keys and
structure coincide, every Binary/RPM/DEB download URL, checksum URL and
instruction text (and Homebrew URL) is a genuine
`pre ++ "/release/" ++ post` to `pre ++ "/edge/" ++ post` substitution
(`segStep` has no equality escape), and every other field is exactly
equal.  The last two conjuncts exhibit a concrete substituted URL pair. -/
theorem enterprise_edge_release_subst (s a r : String) :
    enterpriseChannelRel (generateEnterpriseDownloadsJSON s a r false)
      (generateEnterpriseDownloadsJSON s a r true) ∧
    Option.map DlInfo.download
      (Option.bind (Option.bind (Option.bind
        ((generateEnterpriseDownloadsJSON s "mc-enterprise" r false).subscriptions.lookup
          "Enterprise")
        (fun d => d.linux.lookup "AIStor Client"))
        (fun m => m.lookup "amd64"))
        DownloadJSON.bin) =
      some "https://dl.min.io/aistor/mc/release/linux-amd64/mc" ∧
    Option.map DlInfo.download
      (Option.bind (Option.bind (Option.bind
        ((generateEnterpriseDownloadsJSON s "mc-enterprise" r true).subscriptions.lookup
          "Enterprise")
        (fun d => d.linux.lookup "AIStor Client"))
        (fun m => m.lookup "amd64"))
        DownloadJSON.bin) =
      some "https://dl.min.io/aistor/mc/edge/linux-amd64/mc" := by
  refine ⟨?_, rfl, rfl⟩
  show enterpriseChannelRel (genEnterpriseSeg "release" s a r) (genEnterpriseSeg "edge" s a r)
  unfold genEnterpriseSeg
  refine List.Forall₂.cons ⟨rfl, ?_, ?_, ?_, ?_, ?_⟩ List.Forall₂.nil <;>
  · by_cases h1 : a = "minio-enterprise" <;> by_cases h2 : a = "mc-enterprise"
    · subst h1; exact absurd h2 (by decide)
    · subst h1
      simp only [reduceIte, if_pos rfl, if_neg (by decide : ¬("minio-enterprise" = "mc-enterprise")), List.append_nil]
      first
      | exact List.Forall₂.cons ⟨rfl,
          List.Forall₂.cons ⟨rfl, entMinioK8s_rel⟩
            (List.Forall₂.cons ⟨rfl, entMinioK8s_rel⟩ List.Forall₂.nil)⟩ List.Forall₂.nil
      | exact List.Forall₂.cons ⟨rfl,
          List.Forall₂.cons ⟨rfl, entMinioDocker_rel r⟩
            (List.Forall₂.cons ⟨rfl, entMinioDocker_rel r⟩ List.Forall₂.nil)⟩ List.Forall₂.nil
      | exact List.Forall₂.cons ⟨rfl,
          List.Forall₂.cons ⟨rfl, entMinioLinux_rel "amd64" s⟩
            (List.Forall₂.cons ⟨rfl, entMinioLinux_rel "arm64" s⟩ List.Forall₂.nil)⟩
          (List.Forall₂.cons ⟨rfl,
            List.Forall₂.cons ⟨rfl, entKmsLinux_rel "amd64"⟩
              (List.Forall₂.cons ⟨rfl, entKmsLinux_rel "arm64"⟩ List.Forall₂.nil)⟩
            List.Forall₂.nil)
      | exact List.Forall₂.cons ⟨rfl,
          List.Forall₂.cons ⟨rfl, entMinioMac_rel "arm64"⟩ List.Forall₂.nil⟩ List.Forall₂.nil
      | exact List.Forall₂.cons ⟨rfl,
          List.Forall₂.cons ⟨rfl, entMinioWin_rel "amd64"⟩ List.Forall₂.nil⟩ List.Forall₂.nil
    · subst h2
      simp only [reduceIte, if_pos rfl, if_neg (by decide : ¬("mc-enterprise" = "minio-enterprise")), List.nil_append]
      first
      | exact List.Forall₂.cons ⟨rfl, List.Forall₂.nil⟩ List.Forall₂.nil
      | exact List.Forall₂.cons ⟨rfl,
          List.Forall₂.cons ⟨rfl, entMcDocker_rel r⟩
            (List.Forall₂.cons ⟨rfl, entMcDocker_rel r⟩ List.Forall₂.nil)⟩ List.Forall₂.nil
      | exact List.Forall₂.cons ⟨rfl,
          List.Forall₂.cons ⟨rfl, entMcLinux_rel "amd64" s⟩
            (List.Forall₂.cons ⟨rfl, entMcLinux_rel "arm64" s⟩ List.Forall₂.nil)⟩ List.Forall₂.nil
      | exact List.Forall₂.cons ⟨rfl,
          List.Forall₂.cons ⟨rfl, entMcMac_rel "arm64"⟩ List.Forall₂.nil⟩ List.Forall₂.nil
      | exact List.Forall₂.cons ⟨rfl,
          List.Forall₂.cons ⟨rfl, entMcWin_rel "amd64"⟩ List.Forall₂.nil⟩ List.Forall₂.nil
    · simp only [if_neg h1, if_neg h2, List.append_nil]
      exact List.Forall₂.nil

/-! ## Helper string facts -/

/-- Appending strings concatenates the character data. -/
theorem strAppend_data (a b : String) : (a ++ b).data = a.data ++ b.data := by
  cases a; cases b; rfl

/-- Appending the empty string on the right is the identity. -/
theorem strAppend_empty (a : String) : a ++ "" = a := by
  cases a with
  | mk l => show String.mk (l ++ []) = String.mk l; rw [List.append_nil]

/-- A string with a dot spliced in the middle is never empty. -/
theorem dotted_ne_empty (x y : String) : x ++ "." ++ y ≠ "" := by
  intro h
  have h2 := congrArg String.data h
  rw [strAppend_data, strAppend_data] at h2
  have h3 := (List.append_eq_nil.mp h2).1
  have h4 := (List.append_eq_nil.mp h3).2
  exact absurd h4 (by decide)

/-- C8: `releaseTagToReleaseTime` succeeds exactly on tags made of 2 to 4
dot-separated fields whose first field is the literal `RELEASE` and whose
second field parses under the `2006-01-02T15-04-05Z` layout; it returns an
error on every other input. -/
theorem releaseTagToReleaseTime_ok_iff (r : String) :
    exceptOk (releaseTagToReleaseTime r) = true ↔
      (2 ≤ (goSplit '.' r).length ∧ (goSplit '.' r).length ≤ 4 ∧
        (goSplit '.' r).getD 0 "" = "RELEASE" ∧
        (parseMinioReleaseTime ((goSplit '.' r).getD 1 "")).isSome = true) := by
  simp only [releaseTagToReleaseTime]
  split_ifs with h1 h2
  · simp only [exceptOk, Bool.false_eq_true, false_iff]
    rintro ⟨ha, hb, -, -⟩
    omega
  · simp only [exceptOk, Bool.false_eq_true, false_iff]
    rintro ⟨-, -, hR, -⟩
    exact h2 hR
  · push_neg at h1
    cases hp : parseMinioReleaseTime ((goSplit '.' r).getD 1 "") with
    | none =>
      simp only [exceptOk, Bool.false_eq_true, false_iff]
      rintro ⟨-, -, -, hs⟩
      exact absurd hs (by decide)
    | some t =>
      simp only [exceptOk, true_iff]
      exact ⟨h1.1, h1.2, not_not.mp h2, rfl⟩

/-- Reassociating the hotfix suffix: the code's `".0.0." ++ hotfixStr`
equals the specification's `".0.0" ++ "." ++ field3 ++ "." ++ field4`. -/
theorem hotfix_merge (F x y : String) :
    F ++ ".0.0." ++ (x ++ "." ++ y) = F ++ ".0.0" ++ ("." ++ x ++ "." ++ y) := by
  simp only [String.append_assoc]
  rw [← String.append_assoc ".0.0" "." (x ++ ("." ++ y))]
  exact rfl

/-- C1: on a release tag with 2..4 dot-separated fields, first field
`RELEASE` and second field `<t>` parsing under `2006-01-02T15-04-05Z`,
`semVerRelease` returns the time reformatted with `20060102150405` followed
by `.0.0`, and additionally `.field3.field4` when the tag has exactly four
fields. -/
theorem semVerRelease_release_tag_format (tag : String) (t : GoTime)
    (hlo : 2 ≤ (goSplit '.' tag).length) (hhi : (goSplit '.' tag).length ≤ 4)
    (hR : (goSplit '.' tag).getD 0 "" = "RELEASE")
    (hp : parseMinioReleaseTime ((goSplit '.' tag).getD 1 "") = some t) :
    semVerReleaseOpt tag =
      some (goFormatPkgTime t ++ ".0.0" ++
        (if (goSplit '.' tag).length = 4 then
          "." ++ (goSplit '.' tag).getD 2 "" ++ "." ++ (goSplit '.' tag).getD 3 ""
        else "")) := by
  simp only [semVerReleaseOpt, releaseTagToReleaseTime]
  rw [if_neg (by omega : ¬((goSplit '.' tag).length < 2 ∨ (goSplit '.' tag).length > 4))]
  rw [if_neg (not_not_intro hR)]
  rw [hp]
  by_cases h4 : (goSplit '.' tag).length = 4
  · simp only [if_pos h4]
    rw [if_pos (dotted_ne_empty _ _)]
    exact congrArg some (hotfix_merge _ _ _)
  · simp only [if_neg h4]
    rw [if_neg (by simp : ¬(("" : String) ≠ ""))]
    exact congrArg some (strAppend_empty _).symm

/-- Witness for C1 at the repository's own hotfix example. -/
theorem semVerRelease_release_tag_format_witness :
    semVerReleaseOpt "RELEASE.2025-03-12T00-00-00Z.hotfix.1" =
      some "20250312000000.0.0.hotfix.1" := by
  have h := semVerRelease_release_tag_format "RELEASE.2025-03-12T00-00-00Z.hotfix.1"
    ⟨2025, 3, 12, 0, 0, 0, 0⟩ (by decide) (by decide) (by decide) (by decide)
  exact h.trans (by decide)

/-- The key list of an association map. -/
def keysOf {α : Type} (m : List (String × α)) : List String := m.map Prod.fst

/-- C5: shape of the community downloads mapping: for `minio` every
platform holds exactly the product `MinIO Server` (amd64/arm64/ppc64le on
Linux, Docker and Kubernetes; amd64/arm64 on macOS; amd64 on Windows), for
`mc` the same shape under `MinIO Client`, and for any other appName every
platform map is empty. -/
theorem generateDownloadsJSON_shape (s : String) :
    (keysOf (generateDownloadsJSON s "minio").linux = ["MinIO Server"] ∧
     keysOf (generateDownloadsJSON s "minio").docker = ["MinIO Server"] ∧
     keysOf (generateDownloadsJSON s "minio").kubernetes = ["MinIO Server"] ∧
     keysOf (generateDownloadsJSON s "minio").macOS = ["MinIO Server"] ∧
     keysOf (generateDownloadsJSON s "minio").windows = ["MinIO Server"] ∧
     Option.map keysOf ((generateDownloadsJSON s "minio").linux.lookup "MinIO Server") =
       some ["amd64", "arm64", "ppc64le"] ∧
     Option.map keysOf ((generateDownloadsJSON s "minio").docker.lookup "MinIO Server") =
       some ["amd64", "arm64", "ppc64le"] ∧
     Option.map keysOf ((generateDownloadsJSON s "minio").kubernetes.lookup "MinIO Server") =
       some ["amd64", "arm64", "ppc64le"] ∧
     Option.map keysOf ((generateDownloadsJSON s "minio").macOS.lookup "MinIO Server") =
       some ["amd64", "arm64"] ∧
     Option.map keysOf ((generateDownloadsJSON s "minio").windows.lookup "MinIO Server") =
       some ["amd64"]) ∧
    (keysOf (generateDownloadsJSON s "mc").linux = ["MinIO Client"] ∧
     keysOf (generateDownloadsJSON s "mc").docker = ["MinIO Client"] ∧
     keysOf (generateDownloadsJSON s "mc").kubernetes = ["MinIO Client"] ∧
     keysOf (generateDownloadsJSON s "mc").macOS = ["MinIO Client"] ∧
     keysOf (generateDownloadsJSON s "mc").windows = ["MinIO Client"] ∧
     Option.map keysOf ((generateDownloadsJSON s "mc").linux.lookup "MinIO Client") =
       some ["amd64", "arm64", "ppc64le"] ∧
     Option.map keysOf ((generateDownloadsJSON s "mc").docker.lookup "MinIO Client") =
       some ["amd64", "arm64", "ppc64le"] ∧
     Option.map keysOf ((generateDownloadsJSON s "mc").kubernetes.lookup "MinIO Client") =
       some ["amd64", "arm64", "ppc64le"] ∧
     Option.map keysOf ((generateDownloadsJSON s "mc").macOS.lookup "MinIO Client") =
       some ["amd64", "arm64"] ∧
     Option.map keysOf ((generateDownloadsJSON s "mc").windows.lookup "MinIO Client") =
       some ["amd64"]) ∧
    (∀ a, a ≠ "minio" → a ≠ "mc" →
      generateDownloadsJSON s a =
        { kubernetes := [], docker := [], linux := [], macOS := [], windows := [] }) := by
  refine ⟨⟨rfl, rfl, rfl, rfl, rfl, rfl, rfl, rfl, rfl, rfl⟩,
    ⟨rfl, rfl, rfl, rfl, rfl, rfl, rfl, rfl, rfl, rfl⟩, ?_⟩
  intro a h1 h2
  simp only [generateDownloadsJSON, if_neg h1, if_neg h2]

/-- Witness for C5's universally quantified third part at `sidekick`. -/
theorem generateDownloadsJSON_shape_witness :
    generateDownloadsJSON "20250312000000.0.0" "sidekick" =
      { kubernetes := [], docker := [], linux := [], macOS := [], windows := [] } :=
  (generateDownloadsJSON_shape "20250312000000.0.0").2.2 "sidekick"
    (by decide) (by decide)

/-- C9: the RPM and DEB architecture maps only know amd64 and arm64, so for
ppc64le (which the community Linux loop includes) every RPM/DEB download,
checksum and instruction URL interpolates the empty string: the RPM file
name ends in `-1..rpm` and the DEB file name in `_<version>_.deb`, for both
`minio` and `mc`. -/
theorem community_ppc64le_empty_arch (s : String) :
    rpmArchMap "ppc64le" = "" ∧ debArchMap "ppc64le" = "" ∧
    ((generateDownloadsJSON s "minio").linux.lookup "MinIO Server").bind
        (fun m => m.lookup "ppc64le") = some (cMinioLinux s "ppc64le") ∧
    ((generateDownloadsJSON s "mc").linux.lookup "MinIO Client").bind
        (fun m => m.lookup "ppc64le") = some (cMcLinux s "ppc64le") ∧
    Option.map DlInfo.download (cMinioLinux s "ppc64le").rpm =
      some ("https://dl.min.io/server/minio/release/linux-ppc64le/minio-" ++ s ++ "-1..rpm") ∧
    Option.map DlInfo.checksum (cMinioLinux s "ppc64le").rpm =
      some ("https://dl.min.io/server/minio/release/linux-ppc64le/minio-" ++ s ++ "-1..rpm.sha256sum") ∧
    Option.map DlInfo.text (cMinioLinux s "ppc64le").rpm =
      some ("dnf install https://dl.min.io/server/minio/release/linux-ppc64le/minio-" ++ s ++ "-1..rpm\nminio --version") ∧
    Option.map DlInfo.download (cMinioLinux s "ppc64le").deb =
      some ("https://dl.min.io/server/minio/release/linux-ppc64le/minio_" ++ s ++ "_.deb") ∧
    Option.map DlInfo.checksum (cMinioLinux s "ppc64le").deb =
      some ("https://dl.min.io/server/minio/release/linux-ppc64le/minio_" ++ s ++ "_.deb.sha256sum") ∧
    Option.map DlInfo.text (cMinioLinux s "ppc64le").deb =
      some ("wget https://dl.min.io/server/minio/release/linux-ppc64le/minio_" ++ s ++
        "_.deb\ndpkg -i minio_" ++ s ++ "_.deb\nminio --version") ∧
    Option.map DlInfo.download (cMcLinux s "ppc64le").rpm =
      some ("https://dl.min.io/client/mc/release/linux-ppc64le/mcli-" ++ s ++ "-1..rpm") ∧
    Option.map DlInfo.checksum (cMcLinux s "ppc64le").rpm =
      some ("https://dl.min.io/client/mc/release/linux-ppc64le/mcli-" ++ s ++ "-1..rpm.sha256sum") ∧
    Option.map DlInfo.text (cMcLinux s "ppc64le").rpm =
      some ("dnf install https://dl.min.io/client/mc/release/linux-ppc64le/mcli-" ++ s ++ "-1..rpm\nmc --version") ∧
    Option.map DlInfo.download (cMcLinux s "ppc64le").deb =
      some ("https://dl.min.io/client/mc/release/linux-ppc64le/mcli_" ++ s ++ "_.deb") ∧
    Option.map DlInfo.checksum (cMcLinux s "ppc64le").deb =
      some ("https://dl.min.io/client/mc/release/linux-ppc64le/mcli_" ++ s ++ "_.deb.sha256sum") ∧
    Option.map DlInfo.text (cMcLinux s "ppc64le").deb =
      some ("wget https://dl.min.io/client/mc/release/linux-ppc64le/mcli_" ++ s ++
        "_.deb\ndpkg -i mcli_" ++ s ++ "_.deb\nmc --version") := by
  refine ⟨rfl, rfl, rfl, rfl, ?_, ?_, ?_, ?_, ?_, ?_, ?_, ?_, ?_, ?_, ?_, ?_⟩
  · refine congrArg some ?_
    rw [append_tail3_eq _ "-1." (rpmArchMap "ppc64le") ".rpm" "-1..rpm" rfl]
    exact rfl
  · refine congrArg some ?_
    rw [append_tail3_eq _ "-1." (rpmArchMap "ppc64le") ".rpm.sha256sum" "-1..rpm.sha256sum" rfl]
    exact rfl
  · refine congrArg some ?_
    rw [append_tail3_eq _ "-1." (rpmArchMap "ppc64le") ".rpm\nminio --version" "-1..rpm\nminio --version" rfl]
    exact rfl
  · refine congrArg some ?_
    rw [append_tail3_eq _ "_" (debArchMap "ppc64le") ".deb" "_.deb" rfl]
    exact rfl
  · refine congrArg some ?_
    rw [append_tail3_eq _ "_" (debArchMap "ppc64le") ".deb.sha256sum" "_.deb.sha256sum" rfl]
    exact rfl
  · refine congrArg some ?_
    rw [append_tail3_eq _ "_" (debArchMap "ppc64le") ".deb\ndpkg -i minio_"
      "_.deb\ndpkg -i minio_" rfl]
    rw [append_tail3_eq _ "_" (debArchMap "ppc64le") ".deb\nminio --version"
      "_.deb\nminio --version" rfl]
    exact rfl
  · refine congrArg some ?_
    rw [append_tail3_eq _ "-1." (rpmArchMap "ppc64le") ".rpm" "-1..rpm" rfl]
    exact rfl
  · refine congrArg some ?_
    rw [append_tail3_eq _ "-1." (rpmArchMap "ppc64le") ".rpm.sha256sum" "-1..rpm.sha256sum" rfl]
    exact rfl
  · refine congrArg some ?_
    rw [append_tail3_eq _ "-1." (rpmArchMap "ppc64le") ".rpm\nmc --version" "-1..rpm\nmc --version" rfl]
    exact rfl
  · refine congrArg some ?_
    rw [append_tail3_eq _ "_" (debArchMap "ppc64le") ".deb" "_.deb" rfl]
    exact rfl
  · refine congrArg some ?_
    rw [append_tail3_eq _ "_" (debArchMap "ppc64le") ".deb.sha256sum" "_.deb.sha256sum" rfl]
    exact rfl
  · refine congrArg some ?_
    rw [append_tail3_eq _ "_" (debArchMap "ppc64le") ".deb\ndpkg -i mcli_"
      "_.deb\ndpkg -i mcli_" rfl]
    rw [append_tail3_eq _ "_" (debArchMap "ppc64le") ".deb\nmc --version"
      "_.deb\nmc --version" rfl]
    exact rfl

/-- A benign oracle: deps parse fine, nfpm succeeds everywhere, packages
are empty byte streams. -/
def envAllOk : PkgEnv :=
  { depsParse := fun _ => .ok ()
    parseCfgErr := fun _ => none
    getErr := fun _ _ => none
    validateErr := fun _ _ => none
    implErr := fun _ => none
    fileNameOf := fun _ _ => "pkg.deb"
    createErr := fun _ _ => none
    packageRes := fun _ _ => .ok []
    sidecarErr := fun _ _ => none
    sha := fun _ => [] }

/-- Only the stripped release can come out of `warpCheck`. -/
theorem warpCheck_ok_val (r v : String) (h : warpCheck r = .ok v) :
    v = trimLeadingV r := by
  unfold warpCheck at h
  by_cases h1 : hasVPre r = false
  · rw [if_pos h1] at h
    exact absurd h (by simp)
  · rw [if_neg h1] at h
    by_cases h2 : semverMatch (trimLeadingV r) = false
    · rw [if_pos h2] at h
      exact absurd h (by simp)
    · rw [if_neg h2] at h
      exact (Except.ok.inj h).symm

/-- C3: for appName `warp` the CLI is fatal unless the release starts with
`v` and the remainder matches `^\d+\.\d+\.\d+$`; on success the `v` is
stripped, the stripped version is the one interpolated into the warp
download metadata, and it is also the package version `doPackage` would
use. -/
theorem warp_validation_flow (env : PkgEnv) (nP ign edge : Bool)
    (r pk dp rd : String) :
    (exceptOk (warpCheck r) = true ↔
      (hasVPre r = true ∧ semverMatch (trimLeadingV r) = true)) ∧
    (∀ e, warpCheck r = .error e →
      mainRun env nP ign edge "warp" r pk dp rd = .fatal e) ∧
    (∀ v, warpCheck r = .ok v →
      v = trimLeadingV r ∧
      doPackageVersionOf "warp" r = some v ∧
      mainRun env nP ign edge "warp" r pk dp rd =
        .finished [.wroteJSON (.plain (generateWarpDownloadsJSON v r))
          ("downloads-warp" ++ (if edge then "-edge" else "") ++ ".json")] ∧
      Option.map DlInfo.download (warpLinux v "amd64").rpm =
        some ("https://dl.min.io/aistor/warp/release/linux-amd64/warp-" ++ v ++
          "-1.x86_64.rpm")) := by
  have hmain : mainRun env nP ign edge "warp" r pk dp rd = jsonPhase [] "warp" r edge := by
    unfold mainRun
    rw [if_neg (by simp)]
  refine ⟨?_, ?_, ?_⟩
  · cases hv : hasVPre r with
    | false => simp [warpCheck, exceptOk, hv]
    | true =>
      cases hm : semverMatch (trimLeadingV r) with
      | false => simp [warpCheck, exceptOk, hv, hm]
      | true => simp [warpCheck, exceptOk, hv, hm]
  · intro e he
    rw [hmain]
    simp only [jsonPhase]
    rw [if_neg (by decide), if_neg (by decide), if_pos trivial, he]
  · intro v hv'
    have h1 : v = trimLeadingV r := warpCheck_ok_val r v hv'
    refine ⟨h1, ?_, ?_, ?_⟩
    · simp only [doPackageVersionOf, h1]
      exact if_pos trivial
    · rw [hmain]
      simp only [jsonPhase]
      rw [if_neg (by decide), if_neg (by decide), if_pos trivial, hv']
      rfl
    · show some ("https://dl.min.io/aistor/warp/release/linux-" ++ "amd64" ++
        "/warp-" ++ v ++ "-1." ++ rpmArchMap "amd64" ++ ".rpm") =
          some ("https://dl.min.io/aistor/warp/release/linux-amd64/warp-" ++ v ++
            "-1.x86_64.rpm")
      refine congrArg some ?_
      rw [append_tail3_eq _ "-1." (rpmArchMap "amd64") ".rpm" "-1.x86_64.rpm" rfl]
      exact rfl

/-- Witness for C3: a valid warp tag generates metadata with the stripped
version, an invalid one is fatal. -/
theorem warp_validation_flow_witness :
    mainRun envAllOk false false false "warp" "v0.4.3" "deb,rpm,apk" "" "" =
      .finished [.wroteJSON (.plain (generateWarpDownloadsJSON "0.4.3" "v0.4.3"))
        "downloads-warp.json"] ∧
    mainRun envAllOk false false false "warp" "0.4.3" "deb,rpm,apk" "" "" =
      .fatal "warp release version must start with v (e.g., v0.4.3), got: 0.4.3" := by
  constructor
  · have h := ((warp_validation_flow envAllOk false false false "v0.4.3"
      "deb,rpm,apk" "" "").2.2 "0.4.3" (by rfl)).2.2.1
    exact h.trans (by rfl)
  · exact (warp_validation_flow envAllOk false false false "0.4.3"
      "deb,rpm,apk" "" "").2.1 _ (by rfl)

/-- Whenever the JSON phase finishes, the trace is the packaging prefix
followed by exactly one JSON write. -/
theorem jsonPhase_finished (pre : List MainEvent) (a r : String) (edge : Bool)
    (evs : List MainEvent) (h : jsonPhase pre a r edge = .finished evs) :
    ∃ doc fn, evs = pre ++ [MainEvent.wroteJSON doc fn] := by
  simp only [jsonPhase] at h
  split_ifs at h
  all_goals
    first
      | (cases hs : semVerReleaseOpt r with
          | none => rw [hs] at h; exact absurd h (by simp)
          | some sv =>
            rw [hs] at h
            exact ⟨_, _, (RunOutcome.finished.inj h).symm⟩)
      | (cases hs : warpCheck r with
          | error e => rw [hs] at h; exact absurd h (by simp)
          | ok v =>
            rw [hs] at h
            exact ⟨_, _, (RunOutcome.finished.inj h).symm⟩)

/-- C4 (amended): in every completed run with package building enabled and
an appName other than `warp`, `main` runs `doPackage` first and writes the
JSON manifest last.  (The original claim fails for `warp`, see the
counterexample.) -/
theorem main_packages_then_writes_json (env : PkgEnv) (ign edge : Bool)
    (a r pk dp rd : String) (evs : List MainEvent)
    (ha : a ≠ "warp")
    (h : mainRun env false ign edge a r pk dp rd = .finished evs) :
    evs.head? = some MainEvent.ranDoPackage ∧
      ∃ doc fn, evs.getLast? = some (MainEvent.wroteJSON doc fn) := by
  unfold mainRun at h
  rw [if_pos ⟨rfl, ha⟩] at h
  cases hdp : doPackageModel env a r pk dp rd ign with
  | none => rw [hdp] at h; exact absurd h (by simp)
  | some pr =>
    rw [hdp] at h
    obtain ⟨tr, er⟩ := pr
    cases er with
    | none =>
      replace h : jsonPhase [MainEvent.ranDoPackage] a r edge = .finished evs := h
      obtain ⟨doc, fn, hevs⟩ := jsonPhase_finished _ _ _ _ _ h
      subst hevs
      exact ⟨rfl, doc, fn, rfl⟩
    | some e =>
      cases ign with
      | false => exact absurd h (by simp)
      | true =>
        replace h : jsonPhase [MainEvent.ranDoPackage, MainEvent.loggedPkgError e]
            a r edge = .finished evs := h
        obtain ⟨doc, fn, hevs⟩ := jsonPhase_finished _ _ _ _ _ h
        subst hevs
        exact ⟨rfl, doc, fn, rfl⟩

/-- Witness for C4's amended statement on a clean `minio` run. -/
theorem main_packages_then_writes_json_witness :
    ([MainEvent.ranDoPackage,
      MainEvent.wroteJSON (.plain (generateDownloadsJSON "20250312000000.0.0" "minio"))
        "downloads-minio.json"].head? = some MainEvent.ranDoPackage) ∧
      ∃ doc fn,
        ([MainEvent.ranDoPackage,
          MainEvent.wroteJSON (.plain (generateDownloadsJSON "20250312000000.0.0" "minio"))
            "downloads-minio.json"].getLast? = some (MainEvent.wroteJSON doc fn)) :=
  main_packages_then_writes_json envAllOk false false "minio"
    "RELEASE.2025-03-12T00-00-00Z" "deb,rpm,apk" "" ""
    [MainEvent.ranDoPackage,
     MainEvent.wroteJSON (.plain (generateDownloadsJSON "20250312000000.0.0" "minio"))
       "downloads-minio.json"]
    (by decide) (by rfl)

/-- Counterexample to C4 as stated: with packaging enabled (`--no-pkg`
absent) and the supported appName `warp`, `main` never invokes `doPackage`
yet still writes the JSON manifest. -/
theorem main_warp_skips_doPackage :
    mainRun envAllOk false false false "warp" "v0.4.3" "deb,rpm,apk" "" "" =
      .finished [.wroteJSON (.plain (generateWarpDownloadsJSON "0.4.3" "v0.4.3"))
        "downloads-warp.json"] ∧
    MainEvent.ranDoPackage ∉
      ([.wroteJSON (.plain (generateWarpDownloadsJSON "0.4.3" "v0.4.3"))
        "downloads-warp.json"] : List MainEvent) :=
  ⟨rfl, by decide⟩

/-- C6: when the per-combination steps preceding packaging succeed,
`doPackage` writes the checksum sidecar at `<package path>.sha256sum`
containing the lowercase hex SHA-256 digest of the emitted package bytes,
two spaces, and the package file name; and on a packaging or sidecar-write
error it removes the partially written package file and returns the
error. -/
theorem doPackage_checksum_sidecar (env : PkgEnv) (a rd arch pkgr : String)
    (ignore : Bool)
    (hget : env.getErr arch pkgr = none) (hval : env.validateErr arch pkgr = none)
    (himpl : env.implErr pkgr = none) (hcr : env.createErr arch pkgr = none) :
    (∀ bytes, env.packageRes arch pkgr = .ok bytes →
      env.sidecarErr arch pkgr = none →
      processCombo env a rd arch pkgr ignore =
        ([.created (releaseDirNameOf rd a ++ "/linux-" ++ arch ++ "/" ++ env.fileNameOf arch pkgr),
          .removedLink ((if a = "minio-enterprise" then "minio" else a) ++ extOf (env.fileNameOf arch pkgr)),
          .linked (env.fileNameOf arch pkgr)
            ((if a = "minio-enterprise" then "minio" else a) ++ extOf (env.fileNameOf arch pkgr)),
          .fileBytes (releaseDirNameOf rd a ++ "/linux-" ++ arch ++ "/" ++ env.fileNameOf arch pkgr) bytes,
          .wrote (releaseDirNameOf rd a ++ "/linux-" ++ arch ++ "/" ++ env.fileNameOf arch pkgr ++ ".sha256sum")
            (hexEncode (env.sha bytes) ++ "  " ++ env.fileNameOf arch pkgr),
          .pkgDone (releaseDirNameOf rd a ++ "/linux-" ++ arch ++ "/" ++ env.fileNameOf arch pkgr)],
         none)) ∧
    (∀ e, env.packageRes arch pkgr = .error e →
      processCombo env a rd arch pkgr ignore =
        ([.created (releaseDirNameOf rd a ++ "/linux-" ++ arch ++ "/" ++ env.fileNameOf arch pkgr),
          .removedLink ((if a = "minio-enterprise" then "minio" else a) ++ extOf (env.fileNameOf arch pkgr)),
          .linked (env.fileNameOf arch pkgr)
            ((if a = "minio-enterprise" then "minio" else a) ++ extOf (env.fileNameOf arch pkgr)),
          .removed (releaseDirNameOf rd a ++ "/linux-" ++ arch ++ "/" ++ env.fileNameOf arch pkgr)],
         some e)) ∧
    (∀ bytes e, env.packageRes arch pkgr = .ok bytes →
      env.sidecarErr arch pkgr = some e →
      processCombo env a rd arch pkgr ignore =
        ([.created (releaseDirNameOf rd a ++ "/linux-" ++ arch ++ "/" ++ env.fileNameOf arch pkgr),
          .removedLink ((if a = "minio-enterprise" then "minio" else a) ++ extOf (env.fileNameOf arch pkgr)),
          .linked (env.fileNameOf arch pkgr)
            ((if a = "minio-enterprise" then "minio" else a) ++ extOf (env.fileNameOf arch pkgr)),
          .fileBytes (releaseDirNameOf rd a ++ "/linux-" ++ arch ++ "/" ++ env.fileNameOf arch pkgr) bytes,
          .removed (releaseDirNameOf rd a ++ "/linux-" ++ arch ++ "/" ++ env.fileNameOf arch pkgr)],
         some e)) := by
  refine ⟨?_, ?_, ?_⟩
  · intro bytes hok hsc
    simp only [processCombo, hget, hval, himpl, hcr, hok, hsc, List.cons_append,
      List.nil_append]
  · intro e herr
    simp only [processCombo, hget, hval, himpl, hcr, herr, List.cons_append,
      List.nil_append]
  · intro bytes e hok hsc
    simp only [processCombo, hget, hval, himpl, hcr, hok, hsc, List.cons_append,
      List.nil_append]

/-- Oracle for the C6 witness: two-byte package, identity digest. -/
def envBytes : PkgEnv :=
  { envAllOk with
    packageRes := fun _ _ => .ok [222, 173]
    sha := fun bs => bs }

/-- Witness for C6: the sidecar of a concrete two-byte package holds
`dead  pkg.deb`. -/
theorem doPackage_checksum_sidecar_witness :
    processCombo envBytes "minio" "" "amd64" "deb" false =
      ([.created "minio-release/linux-amd64/pkg.deb",
        .removedLink "minio.deb",
        .linked "pkg.deb" "minio.deb",
        .fileBytes "minio-release/linux-amd64/pkg.deb" [222, 173],
        .wrote "minio-release/linux-amd64/pkg.deb.sha256sum" "dead  pkg.deb",
        .pkgDone "minio-release/linux-amd64/pkg.deb"],
       none) := by
  have h := (doPackage_checksum_sidecar envBytes "minio" "" "amd64" "deb" false
    rfl rfl rfl rfl).1 [222, 173] rfl rfl
  exact h.trans (by decide)

/-- C7: a failed `nfpm.Validate` for an architecture/packager combination
makes `doPackage` return that error, unless `--ignore` is set, in which
case the combination is skipped (no trace, no error) and the remaining
packagers are processed; in `main`, a `doPackage` error is fatal without
`--ignore` and with it is only logged while JSON generation proceeds. -/
theorem doPackage_validation_error_handling (env : PkgEnv)
    (a rd arch pkgr : String) (rest : List String) (e : String)
    (hget : env.getErr arch pkgr = none) (hval : env.validateErr arch pkgr = some e) :
    (processCombo env a rd arch pkgr false = ([], some e)) ∧
    (processCombo env a rd arch pkgr true = ([], none)) ∧
    (processPkgers env a rd arch true (pkgr :: rest) =
      processPkgers env a rd arch true rest) ∧
    (processPkgers env a rd arch false (pkgr :: rest) = ([], some e)) ∧
    (∀ (release pk : String) (sv : String) (ign2 : Bool),
      doPackageVersionOf a release = some sv →
      doPackageModel env a release pk "" rd ign2 =
        some (processArches env a rd (pkgersOf pk) ign2 ["amd64", "arm64", "ppc64le"])) ∧
    (∀ (env2 : PkgEnv) (edge : Bool) (a2 r2 pk2 dp2 rd2 : String)
        (tr : List PkgEvent) (er : String),
      a2 ≠ "warp" →
      doPackageModel env2 a2 r2 pk2 dp2 rd2 false = some (tr, some er) →
      mainRun env2 false false edge a2 r2 pk2 dp2 rd2 = .fatal er) ∧
    (∀ (env2 : PkgEnv) (edge : Bool) (a2 r2 pk2 dp2 rd2 sv2 : String)
        (tr : List PkgEvent) (er : String),
      a2 ≠ "warp" →
      doPackageModel env2 a2 r2 pk2 dp2 rd2 true = some (tr, some er) →
      semVerReleaseOpt r2 = some sv2 →
      ∃ doc fn, mainRun env2 false true edge a2 r2 pk2 dp2 rd2 =
        .finished [MainEvent.ranDoPackage, MainEvent.loggedPkgError er,
          MainEvent.wroteJSON doc fn]) := by
  have hc1 : processCombo env a rd arch pkgr false = ([], some e) := by
    simp only [processCombo, hget, hval]
    rfl
  have hc2 : processCombo env a rd arch pkgr true = ([], none) := by
    simp only [processCombo, hget, hval]
    exact if_pos trivial
  refine ⟨hc1, hc2, ?_, ?_, ?_, ?_, ?_⟩
  · simp only [processPkgers, hc2]
    cases hr : processPkgers env a rd arch true rest with
    | mk evs2 r2 => simp
  · simp only [processPkgers, hc1]
  · intro release pk sv ign2 hver
    simp only [doPackageModel]
    rw [if_neg (by simp)]
    rw [hver]
  · intro env2 edge a2 r2 pk2 dp2 rd2 tr er ha2 hdp
    unfold mainRun
    rw [if_pos ⟨rfl, ha2⟩, hdp]
    rfl
  · intro env2 edge a2 r2 pk2 dp2 rd2 sv2 tr er ha2 hdp hsv
    have hm : mainRun env2 false true edge a2 r2 pk2 dp2 rd2 =
        jsonPhase [MainEvent.ranDoPackage, MainEvent.loggedPkgError er] a2 r2 edge := by
      unfold mainRun
      rw [if_pos ⟨rfl, ha2⟩, hdp]
      rfl
    rw [hm]
    simp only [jsonPhase]
    by_cases h1 : a2 = "minio-enterprise" ∨ a2 = "mc-enterprise"
    · rw [if_pos h1, hsv]
      exact ⟨_, _, rfl⟩
    · rw [if_neg h1]
      by_cases h2 : a2 = "sidekick"
      · rw [if_pos h2, hsv]
        exact ⟨_, _, rfl⟩
      · rw [if_neg h2, if_neg ha2, hsv]
        exact ⟨_, _, rfl⟩

/-- Oracle for the C7 witness: validation fails exactly for the `rpm`
packager. -/
def envValFail : PkgEnv :=
  { envAllOk with
    validateErr := fun _ p => if p = "rpm" then some "validate failed" else none }

/-- Oracle whose `config.Get` fails for `rpm`: used to exercise the
logged-error path, where `doPackage` still returns an error even under
`--ignore`. -/
def envGetFail : PkgEnv :=
  { envAllOk with
    getErr := fun _ p => if p = "rpm" then some "get failed" else none }

/-- Witness for C7: the failing `rpm` combination is fatal without
`--ignore`, skipped with it, and `main` behaves accordingly. -/
theorem doPackage_validation_error_handling_witness :
    processCombo envValFail "minio" "" "amd64" "rpm" false = ([], some "validate failed") ∧
    processCombo envValFail "minio" "" "amd64" "rpm" true = ([], none) ∧
    processPkgers envValFail "minio" "" "amd64" true ["rpm", "apk"] =
      processPkgers envValFail "minio" "" "amd64" true ["apk"] ∧
    processPkgers envValFail "minio" "" "amd64" false ["rpm", "apk"] =
      ([], some "validate failed") ∧
    mainRun envValFail false false false "minio" "RELEASE.2025-03-12T00-00-00Z"
      "deb,rpm,apk" "" "" = .fatal "validate failed" ∧
    ∃ doc fn, mainRun envGetFail false true false "minio" "RELEASE.2025-03-12T00-00-00Z"
      "deb,rpm,apk" "" "" = .finished [MainEvent.ranDoPackage,
        MainEvent.loggedPkgError "get failed", MainEvent.wroteJSON doc fn] := by
  have h := doPackage_validation_error_handling envValFail "minio" "" "amd64" "rpm"
    ["apk"] "validate failed" rfl rfl
  refine ⟨h.1, h.2.1, h.2.2.1, h.2.2.2.1, ?_, ?_⟩
  · exact h.2.2.2.2.2.1 envValFail false "minio" "RELEASE.2025-03-12T00-00-00Z"
      "deb,rpm,apk" "" ""
      [PkgEvent.created "minio-release/linux-amd64/pkg.deb",
       PkgEvent.removedLink "minio.deb",
       PkgEvent.linked "pkg.deb" "minio.deb",
       PkgEvent.fileBytes "minio-release/linux-amd64/pkg.deb" [],
       PkgEvent.wrote "minio-release/linux-amd64/pkg.deb.sha256sum" "  pkg.deb",
       PkgEvent.pkgDone "minio-release/linux-amd64/pkg.deb"]
      "validate failed" (by decide) (by decide)
  · exact h.2.2.2.2.2.2 envGetFail false "minio" "RELEASE.2025-03-12T00-00-00Z"
      "deb,rpm,apk" "" "" "20250312000000.0.0"
      [PkgEvent.created "minio-release/linux-amd64/pkg.deb",
       PkgEvent.removedLink "minio.deb",
       PkgEvent.linked "pkg.deb" "minio.deb",
       PkgEvent.fileBytes "minio-release/linux-amd64/pkg.deb" [],
       PkgEvent.wrote "minio-release/linux-amd64/pkg.deb.sha256sum" "  pkg.deb",
       PkgEvent.pkgDone "minio-release/linux-amd64/pkg.deb"]
      "get failed" (by decide) (by decide) (by decide)

/-- The JSON phase panics for a non-warp app when `semVerRelease` does. -/
theorem jsonPhase_panics (pre : List MainEvent) (a r : String) (edge : Bool)
    (ha : a ≠ "warp") (hr : semVerReleaseOpt r = none) :
    jsonPhase pre a r edge = .panicked := by
  simp only [jsonPhase]
  by_cases h1 : a = "minio-enterprise" ∨ a = "mc-enterprise"
  · rw [if_pos h1, hr]
  · rw [if_neg h1]
    by_cases h2 : a = "sidekick"
    · rw [if_pos h2, hr]
    · rw [if_neg h2, if_neg ha, hr]

/-- C10: the `--release` flag defaults to `""`; `semVerRelease` panics
(rather than returning an error) whenever `releaseTagToReleaseTime` fails;
so with the deps flag at its default every run for an appName other than
`warp` with an absent (`""`) or otherwise malformed release tag ends in a
panic at the `semVerRelease` call — not in a flag-parsing error. -/
theorem missing_release_panics :
    releaseFlagDefaultValue = "" ∧
    (∀ r, exceptOk (releaseTagToReleaseTime r) = false → semVerReleaseOpt r = none) ∧
    semVerReleaseOpt "" = none ∧
    (∀ (env : PkgEnv) (nP ign edge : Bool) (a r pk rd : String),
      a ≠ "warp" → semVerReleaseOpt r = none →
      mainRun env nP ign edge a r pk "" rd = .panicked) := by
  refine ⟨rfl, ?_, by decide, ?_⟩
  · intro r h
    unfold semVerReleaseOpt
    cases ht : releaseTagToReleaseTime r with
    | error e => rfl
    | ok p =>
      rw [ht] at h
      exact absurd h (by simp [exceptOk])
  · intro env nP ign edge a r pk rd ha hr
    cases nP with
    | true =>
      unfold mainRun
      rw [if_neg (by simp)]
      exact jsonPhase_panics [] a r edge ha hr
    | false =>
      have hd : doPackageModel env a r pk "" rd ign = none := by
        simp only [doPackageModel]
        rw [if_neg (by simp)]
        simp only [doPackageVersionOf, if_neg ha, hr]
      unfold mainRun
      rw [if_pos ⟨rfl, ha⟩, hd]

/-- Witness for C10: the default (empty) release tag panics the default
`minio` run before any JSON is produced. -/
theorem missing_release_panics_witness :
    mainRun envAllOk false false false "minio" releaseFlagDefaultValue
      "deb,rpm,apk" "" "" = .panicked :=
  missing_release_panics.2.2.2 envAllOk false false false "minio"
    releaseFlagDefaultValue "deb,rpm,apk" "" (by decide) (by decide)
